import Mathlib

/-!
Verification of the Archipelago wire-message schema (src/src/protocol.rs).

The Rust file defines two serde-derived, internally tagged unions
(ClientMessage / ServerMessage, tag field "cmd"), a collection of payload
structs, three integer-repr enums (Permission, SlotType, ClientStatus), and
two converters into the canonical HintData shape.

This development shallowly embeds that schema: JSON values are an inductive
tree (numbers as integers for the integer-typed payloads; the two f32 time
fields are embedded as F32, which keeps serde_json behaviour at non-finite
values: a non-finite f32 serializes as null and null does not deserialize
back as f32), each struct gets an encoder to a JSON field list and a decoder from
one, mirroring exactly what the serde derives do (field names, declaration
order, None-as-null versus skip_serializing_if omission, unknown fields
ignored, missing Option fields defaulting to None), and the two unions get
top-level encoders/decoders dispatching on the "cmd" tag. Decode failure
(serde error, the spec calls it MalformedMessage) is Option.none; a Rust
panic is modelled by a separate RustResult type so that aborting and
returning an error stay distinguishable.
-/

set_option maxHeartbeats 1000000

namespace Archipelago

/-- JSON values (serde_json Value). Numbers are modelled as integers. -/
inductive Json where
  | null
  | bool (b : Bool)
  | num (n : Int)
  | str (s : String)
  | arr (elems : List Json)
  | obj (fields : List (String × Json))

/-- Field lookup in a JSON object, first match wins. -/
def getField : List (String × Json) → String → Option Json
  | [], _ => none
  | (k, v) :: rest, target => if k = target then some v else getField rest target

def asStr : Json → Option String
  | .str s => some s
  | _ => none

def asInt : Json → Option Int
  | .num n => some n
  | _ => none

def asBool : Json → Option Bool
  | .bool b => some b
  | _ => none

def asArr : Json → Option (List Json)
  | .arr xs => some xs
  | _ => none

def asObj : Json → Option (List (String × Json))
  | .obj fs => some fs
  | _ => none

/-- Arbitrary-shape JSON field (serde_json::Value): decoding is the identity. -/
def asJson : Json → Option Json := fun j => some j

def Json.isNull : Json → Bool
  | .null => true
  | _ => false

/-- A required struct field: absent or mis-shaped is a decode error. -/
def reqJ {α : Type} (o : Option Json) (d : Json → Option α) : Option α :=
  o.bind d

/-- An Option struct field, serde semantics: a missing field and an explicit
null both decode to none; any other value must decode at the element type. -/
def optJ {α : Type} (o : Option Json) (d : Json → Option α) : Option (Option α) :=
  match o with
  | none => some none
  | some j => if j.isNull then some none else (d j).map some

/-- Encoding of an Option field that is always emitted: None becomes null. -/
def encOpt {α : Type} (e : α → Json) : Option α → Json
  | none => .null
  | some a => e a

def encList {α : Type} (e : α → Json) (xs : List α) : Json :=
  .arr (xs.map e)

def decList {α : Type} (d : Json → Option α) : List Json → Option (List α)
  | [] => some []
  | j :: rest => do
    let a ← d j
    let as ← decList d rest
    some (a :: as)

def decArr {α : Type} (d : Json → Option α) (j : Json) : Option (List α) :=
  (asArr j).bind (decList d)

/-- A HashMap with string keys is embedded as an association list; it
encodes to a JSON object. -/
def encPairs {α : Type} (e : α → Json) (m : List (String × α)) : List (String × Json) :=
  m.map (fun p => (p.1, e p.2))

def encObjMap {α : Type} (e : α → Json) (m : List (String × α)) : Json :=
  .obj (encPairs e m)

def decPairs {α : Type} (d : Json → Option α) : List (String × Json) → Option (List (String × α))
  | [] => some []
  | (k, v) :: rest => do
    let a ← d v
    let as ← decPairs d rest
    some ((k, a) :: as)

def decObjMap {α : Type} (d : Json → Option α) (j : Json) : Option (List (String × α)) :=
  (asObj j).bind (decPairs d)

@[simp] theorem asStr_str (s : String) : asStr (.str s) = some s := rfl
@[simp] theorem asInt_num (n : Int) : asInt (.num n) = some n := rfl
@[simp] theorem asBool_bool (b : Bool) : asBool (.bool b) = some b := rfl
@[simp] theorem asArr_arr (xs : List Json) : asArr (.arr xs) = some xs := rfl
@[simp] theorem asObj_obj (fs : List (String × Json)) : asObj (.obj fs) = some fs := rfl
@[simp] theorem asJson_eq (j : Json) : asJson j = some j := rfl
@[simp] theorem reqJ_some {α : Type} (j : Json) (d : Json → Option α) :
    reqJ (some j) d = d j := rfl
@[simp] theorem reqJ_none {α : Type} (d : Json → Option α) :
    reqJ none d = none := rfl
@[simp] theorem optJ_missing {α : Type} (d : Json → Option α) :
    optJ none d = some none := rfl
@[simp] theorem optJ_null {α : Type} (d : Json → Option α) :
    optJ (some .null) d = some none := rfl

theorem optJ_not_null {α : Type} (j : Json) (d : Json → Option α)
    (h : j.isNull = false) : optJ (some j) d = (d j).map some := by
  simp [optJ, h]

@[simp] theorem optJ_some_bool {α : Type} (b : Bool) (d : Json → Option α) :
    optJ (some (.bool b)) d = (d (.bool b)).map some := rfl
@[simp] theorem optJ_some_num {α : Type} (n : Int) (d : Json → Option α) :
    optJ (some (.num n)) d = (d (.num n)).map some := rfl
@[simp] theorem optJ_some_str {α : Type} (s : String) (d : Json → Option α) :
    optJ (some (.str s)) d = (d (.str s)).map some := rfl
@[simp] theorem optJ_some_arr {α : Type} (xs : List Json) (d : Json → Option α) :
    optJ (some (.arr xs)) d = (d (.arr xs)).map some := rfl
@[simp] theorem optJ_some_obj {α : Type} (fs : List (String × Json)) (d : Json → Option α) :
    optJ (some (.obj fs)) d = (d (.obj fs)).map some := rfl
@[simp] theorem optJ_some_encList {α β : Type} (e : β → Json) (xs : List β)
    (d : Json → Option α) :
    optJ (some (encList e xs)) d = (d (encList e xs)).map some := rfl

theorem decList_rt {α : Type} (d : Json → Option α) (e : α → Json)
    (h : ∀ a, d (e a) = some a) : ∀ xs : List α, decList d (xs.map e) = some xs := by
  intro xs
  induction xs with
  | nil => rfl
  | cons a rest ih => simp [decList, h, ih]

theorem decPairs_rt {α : Type} (d : Json → Option α) (e : α → Json)
    (h : ∀ a, d (e a) = some a) :
    ∀ m : List (String × α), decPairs d (encPairs e m) = some m := by
  intro m
  induction m with
  | nil => rfl
  | cons p rest ih =>
    obtain ⟨k, v⟩ := p
    simp [decPairs, encPairs, h] at ih ⊢
    simp [ih]

/-- Generic round trip for an always-emitted Option field, provided the
element encoder never produces a bare null (true of every encoder here). -/
theorem optJ_rt {α : Type} (d : Json → Option α) (e : α → Json)
    (h : ∀ a, d (e a) = some a) (hn : ∀ a, (e a).isNull = false) (o : Option α) :
    optJ (some (encOpt e o)) d = some o := by
  cases o with
  | none => rfl
  | some a => simp [encOpt, optJ_not_null _ _ (hn a), h]

/-! ### Integer-repr enumerations

Permission, SlotType and ClientStatus derive Serialize_repr / Deserialize_repr
with repr(u16): they serialize as their numeric code and decoding matches the
exact code set, any other number being a decode error. -/

inductive Permission where
  | Disabled
  | Enabled
  | Goal
  | Auto
  | AutoEnabled
  deriving DecidableEq

def Permission.code : Permission → Int
  | .Disabled => 0
  | .Enabled => 1
  | .Goal => 2
  | .Auto => 6
  | .AutoEnabled => 7

def Permission.fromCode (n : Int) : Option Permission :=
  if n = 0 then some .Disabled
  else if n = 1 then some .Enabled
  else if n = 2 then some .Goal
  else if n = 6 then some .Auto
  else if n = 7 then some .AutoEnabled
  else none

def Permission.encJ (p : Permission) : Json := .num p.code

def Permission.decJ (j : Json) : Option Permission :=
  (asInt j).bind Permission.fromCode

inductive SlotType where
  | Spectator
  | Player
  | Group
  deriving DecidableEq

def SlotType.code : SlotType → Int
  | .Spectator => 0
  | .Player => 1
  | .Group => 2

def SlotType.fromCode (n : Int) : Option SlotType :=
  if n = 0 then some .Spectator
  else if n = 1 then some .Player
  else if n = 2 then some .Group
  else none

def SlotType.encJ (t : SlotType) : Json := .num t.code

def SlotType.decJ (j : Json) : Option SlotType :=
  (asInt j).bind SlotType.fromCode

inductive ClientStatus where
  | ClientUnknown
  | ClientConnected
  | ClientReady
  | ClientPlaying
  | ClientGoal
  deriving DecidableEq

def ClientStatus.code : ClientStatus → Int
  | .ClientUnknown => 0
  | .ClientConnected => 5
  | .ClientReady => 10
  | .ClientPlaying => 20
  | .ClientGoal => 30

def ClientStatus.fromCode (n : Int) : Option ClientStatus :=
  if n = 0 then some .ClientUnknown
  else if n = 5 then some .ClientConnected
  else if n = 10 then some .ClientReady
  else if n = 20 then some .ClientPlaying
  else if n = 30 then some .ClientGoal
  else none

def ClientStatus.encJ (s : ClientStatus) : Json := .num s.code

def ClientStatus.decJ (j : Json) : Option ClientStatus :=
  (asInt j).bind ClientStatus.fromCode

@[simp] theorem permission_decJ_encJ (p : Permission) : Permission.decJ p.encJ = some p := by
  cases p <;> rfl

@[simp] theorem slotType_decJ_encJ (t : SlotType) : SlotType.decJ t.encJ = some t := by
  cases t <;> rfl

@[simp] theorem clientStatus_decJ_encJ (s : ClientStatus) :
    ClientStatus.decJ s.encJ = some s := by
  cases s <;> rfl

/-- Result of a Rust computation that may panic (abort the process): the
failure constructor records the panic message. A panicked result is a crash,
not a typed error value surfaced to the caller. -/
inductive RustResult (α : Type) where
  | ok (value : α)
  | panicked (msg : String)

/-- The impl From of u16 for ClientStatus: matches the five status codes and
panics on every other value, with the message of the panic macro. -/
def ClientStatus.fromU16 (value : Nat) : RustResult ClientStatus :=
  if value = 0 then .ok .ClientUnknown
  else if value = 5 then .ok .ClientConnected
  else if value = 10 then .ok .ClientReady
  else if value = 20 then .ok .ClientPlaying
  else if value = 30 then .ok .ClientGoal
  else .panicked ("Bad value provided for ClientStatus (" ++ toString value ++ ")")

/-! ### Shared value structs -/

structure NetworkVersion where
  major : Int
  minor : Int
  build : Int
  «class» : String
  deriving DecidableEq

def NetworkVersion.enc (v : NetworkVersion) : List (String × Json) :=
  [("major", .num v.major), ("minor", .num v.minor), ("build", .num v.build),
   ("class", .str v.«class»)]

def NetworkVersion.dec (fs : List (String × Json)) : Option NetworkVersion := do
  let major ← reqJ (getField fs "major") asInt
  let minor ← reqJ (getField fs "minor") asInt
  let build ← reqJ (getField fs "build") asInt
  let cls ← reqJ (getField fs "class") asStr
  some ⟨major, minor, build, cls⟩

def NetworkVersion.encJ (v : NetworkVersion) : Json := .obj v.enc

def NetworkVersion.decJ (j : Json) : Option NetworkVersion :=
  (asObj j).bind NetworkVersion.dec

/-- The network_version constructor of the source. -/
def network_version : NetworkVersion :=
  { major := 0, minor := 5, build := 0, «class» := "Version" }

structure NetworkPlayer where
  team : Int
  slot : Int
  «alias» : String
  name : String
  deriving DecidableEq

def NetworkPlayer.enc (p : NetworkPlayer) : List (String × Json) :=
  [("team", .num p.team), ("slot", .num p.slot), ("alias", .str p.«alias»),
   ("name", .str p.name)]

def NetworkPlayer.dec (fs : List (String × Json)) : Option NetworkPlayer := do
  let team ← reqJ (getField fs "team") asInt
  let slot ← reqJ (getField fs "slot") asInt
  let al ← reqJ (getField fs "alias") asStr
  let name ← reqJ (getField fs "name") asStr
  some ⟨team, slot, al, name⟩

def NetworkPlayer.encJ (p : NetworkPlayer) : Json := .obj p.enc

def NetworkPlayer.decJ (j : Json) : Option NetworkPlayer :=
  (asObj j).bind NetworkPlayer.dec

/-- ItemReference of the spec: item, location, player, flags. Equality is
structural (derived PartialEq/Eq in the source). -/
structure NetworkItem where
  item : Int
  location : Int
  player : Int
  flags : Int
  deriving DecidableEq

def NetworkItem.enc (it : NetworkItem) : List (String × Json) :=
  [("item", .num it.item), ("location", .num it.location),
   ("player", .num it.player), ("flags", .num it.flags)]

def NetworkItem.dec (fs : List (String × Json)) : Option NetworkItem := do
  let item ← reqJ (getField fs "item") asInt
  let location ← reqJ (getField fs "location") asInt
  let player ← reqJ (getField fs "player") asInt
  let flags ← reqJ (getField fs "flags") asInt
  some ⟨item, location, player, flags⟩

def NetworkItem.encJ (it : NetworkItem) : Json := .obj it.enc

def NetworkItem.decJ (j : Json) : Option NetworkItem :=
  (asObj j).bind NetworkItem.dec

/-- NetworkSlot: the field written r#type in the source serializes as
"type". -/
structure NetworkSlot where
  name : String
  game : String
  type : SlotType
  group_members : List Int
  deriving DecidableEq

def NetworkSlot.enc (s : NetworkSlot) : List (String × Json) :=
  [("name", .str s.name), ("game", .str s.game), ("type", s.type.encJ),
   ("group_members", encList Json.num s.group_members)]

def NetworkSlot.dec (fs : List (String × Json)) : Option NetworkSlot := do
  let name ← reqJ (getField fs "name") asStr
  let game ← reqJ (getField fs "game") asStr
  let type ← reqJ (getField fs "type") SlotType.decJ
  let group_members ← reqJ (getField fs "group_members") (decArr asInt)
  some ⟨name, game, type, group_members⟩

def NetworkSlot.encJ (s : NetworkSlot) : Json := .obj s.enc

def NetworkSlot.decJ (j : Json) : Option NetworkSlot :=
  (asObj j).bind NetworkSlot.dec

structure PermissionsMap where
  release : Permission
  collect : Permission
  remaining : Permission
  deriving DecidableEq

def PermissionsMap.enc (m : PermissionsMap) : List (String × Json) :=
  [("release", m.release.encJ), ("collect", m.collect.encJ),
   ("remaining", m.remaining.encJ)]

def PermissionsMap.dec (fs : List (String × Json)) : Option PermissionsMap := do
  let release ← reqJ (getField fs "release") Permission.decJ
  let collect ← reqJ (getField fs "collect") Permission.decJ
  let remaining ← reqJ (getField fs "remaining") Permission.decJ
  some ⟨release, collect, remaining⟩

def PermissionsMap.encJ (m : PermissionsMap) : Json := .obj m.enc

def PermissionsMap.decJ (j : Json) : Option PermissionsMap :=
  (asObj j).bind PermissionsMap.dec

/-! ### Round trips and Option-field round trips for the element codecs -/

@[simp] theorem decList_str (xs : List String) :
    decList asStr (xs.map Json.str) = some xs :=
  decList_rt asStr Json.str (fun _ => rfl) xs

@[simp] theorem decList_int (xs : List Int) :
    decList asInt (xs.map Json.num) = some xs :=
  decList_rt asInt Json.num (fun _ => rfl) xs

@[simp] theorem decArr_str (xs : List String) :
    decArr asStr (encList Json.str xs) = some xs := by
  simp [decArr, encList]

@[simp] theorem decArr_int (xs : List Int) :
    decArr asInt (encList Json.num xs) = some xs := by
  simp [decArr, encList]

@[simp] theorem networkVersion_decJ_encJ (v : NetworkVersion) :
    NetworkVersion.decJ v.encJ = some v := by
  simp [NetworkVersion.decJ, NetworkVersion.encJ, NetworkVersion.dec,
    NetworkVersion.enc, getField]

@[simp] theorem networkPlayer_decJ_encJ (p : NetworkPlayer) :
    NetworkPlayer.decJ p.encJ = some p := by
  simp [NetworkPlayer.decJ, NetworkPlayer.encJ, NetworkPlayer.dec,
    NetworkPlayer.enc, getField]

@[simp] theorem networkItem_decJ_encJ (it : NetworkItem) :
    NetworkItem.decJ it.encJ = some it := by
  simp [NetworkItem.decJ, NetworkItem.encJ, NetworkItem.dec,
    NetworkItem.enc, getField]

@[simp] theorem networkSlot_decJ_encJ (s : NetworkSlot) :
    NetworkSlot.decJ s.encJ = some s := by
  simp [NetworkSlot.decJ, NetworkSlot.encJ, NetworkSlot.dec,
    NetworkSlot.enc, getField]

@[simp] theorem permissionsMap_decJ_encJ (m : PermissionsMap) :
    PermissionsMap.decJ m.encJ = some m := by
  simp [PermissionsMap.decJ, PermissionsMap.encJ, PermissionsMap.dec,
    PermissionsMap.enc, getField]

@[simp] theorem decList_networkItem (xs : List NetworkItem) :
    decList NetworkItem.decJ (xs.map NetworkItem.encJ) = some xs :=
  decList_rt NetworkItem.decJ NetworkItem.encJ networkItem_decJ_encJ xs

@[simp] theorem decList_networkPlayer (xs : List NetworkPlayer) :
    decList NetworkPlayer.decJ (xs.map NetworkPlayer.encJ) = some xs :=
  decList_rt NetworkPlayer.decJ NetworkPlayer.encJ networkPlayer_decJ_encJ xs

@[simp] theorem decArr_networkItem (xs : List NetworkItem) :
    decArr NetworkItem.decJ (encList NetworkItem.encJ xs) = some xs := by
  simp [decArr, encList]

@[simp] theorem decArr_networkPlayer (xs : List NetworkPlayer) :
    decArr NetworkPlayer.decJ (encList NetworkPlayer.encJ xs) = some xs := by
  simp [decArr, encList]

@[simp] theorem decObjMap_str (m : List (String × String)) :
    decObjMap asStr (encObjMap Json.str m) = some m := by
  simp only [decObjMap, encObjMap, asObj_obj, Option.some_bind]
  exact decPairs_rt asStr Json.str (fun _ => rfl) m

@[simp] theorem decObjMap_int (m : List (String × Int)) :
    decObjMap asInt (encObjMap Json.num m) = some m := by
  simp only [decObjMap, encObjMap, asObj_obj, Option.some_bind]
  exact decPairs_rt asInt Json.num (fun _ => rfl) m

@[simp] theorem decObjMap_permission (m : List (String × Permission)) :
    decObjMap Permission.decJ (encObjMap Permission.encJ m) = some m := by
  simp only [decObjMap, encObjMap, asObj_obj, Option.some_bind]
  exact decPairs_rt Permission.decJ Permission.encJ permission_decJ_encJ m

@[simp] theorem decObjMap_networkSlot (m : List (String × NetworkSlot)) :
    decObjMap NetworkSlot.decJ (encObjMap NetworkSlot.encJ m) = some m := by
  simp only [decObjMap, encObjMap, asObj_obj, Option.some_bind]
  exact decPairs_rt NetworkSlot.decJ NetworkSlot.encJ networkSlot_decJ_encJ m

@[simp] theorem decObjMap_json (m : List (String × Json)) :
    decObjMap asJson (encObjMap id m) = some m := by
  simp only [decObjMap, encObjMap, asObj_obj, Option.some_bind]
  exact decPairs_rt asJson id (fun _ => rfl) m

@[simp] theorem optJ_str (o : Option String) :
    optJ (some (encOpt Json.str o)) asStr = some o :=
  optJ_rt asStr Json.str (fun _ => rfl) (fun _ => rfl) o

@[simp] theorem optJ_int (o : Option Int) :
    optJ (some (encOpt Json.num o)) asInt = some o :=
  optJ_rt asInt Json.num (fun _ => rfl) (fun _ => rfl) o

@[simp] theorem optJ_bool (o : Option Bool) :
    optJ (some (encOpt Json.bool o)) asBool = some o :=
  optJ_rt asBool Json.bool (fun _ => rfl) (fun _ => rfl) o

@[simp] theorem optJ_list_str (o : Option (List String)) :
    optJ (some (encOpt (encList Json.str) o)) (decArr asStr) = some o :=
  optJ_rt (decArr asStr) (encList Json.str) decArr_str (fun _ => rfl) o

@[simp] theorem optJ_list_int (o : Option (List Int)) :
    optJ (some (encOpt (encList Json.num) o)) (decArr asInt) = some o :=
  optJ_rt (decArr asInt) (encList Json.num) decArr_int (fun _ => rfl) o

@[simp] theorem optJ_list_networkPlayer (o : Option (List NetworkPlayer)) :
    optJ (some (encOpt (encList NetworkPlayer.encJ) o)) (decArr NetworkPlayer.decJ) = some o :=
  optJ_rt (decArr NetworkPlayer.decJ) (encList NetworkPlayer.encJ) decArr_networkPlayer (fun _ => rfl) o

@[simp] theorem optJ_networkVersion (o : Option NetworkVersion) :
    optJ (some (encOpt NetworkVersion.encJ o)) NetworkVersion.decJ = some o :=
  optJ_rt NetworkVersion.decJ NetworkVersion.encJ networkVersion_decJ_encJ (fun _ => rfl) o

@[simp] theorem optJ_networkItem (o : Option NetworkItem) :
    optJ (some (encOpt NetworkItem.encJ o)) NetworkItem.decJ = some o :=
  optJ_rt NetworkItem.decJ NetworkItem.encJ networkItem_decJ_encJ (fun _ => rfl) o

@[simp] theorem optJ_map_permission (o : Option (List (String × Permission))) :
    optJ (some (encOpt (encObjMap Permission.encJ) o)) (decObjMap Permission.decJ) = some o :=
  optJ_rt (decObjMap Permission.decJ) (encObjMap Permission.encJ) decObjMap_permission (fun _ => rfl) o

@[simp] theorem optJ_map_int (o : Option (List (String × Int))) :
    optJ (some (encOpt (encObjMap Json.num) o)) (decObjMap asInt) = some o :=
  optJ_rt (decObjMap asInt) (encObjMap Json.num) decObjMap_int (fun _ => rfl) o

/-! ### Client-originated payload structs (REQUESTS) -/

structure Connect where
  password : Option String
  name : String
  version : NetworkVersion
  items_handling : Option Int
  tags : List String
  uuid : String
  game : String
  slot_data : Bool

def Connect.enc (c : Connect) : List (String × Json) :=
  [("password", encOpt Json.str c.password), ("name", .str c.name),
   ("version", c.version.encJ),
   ("items_handling", encOpt Json.num c.items_handling),
   ("tags", encList Json.str c.tags), ("uuid", .str c.uuid),
   ("game", .str c.game), ("slot_data", .bool c.slot_data)]

def Connect.dec (fs : List (String × Json)) : Option Connect := do
  let password ← optJ (getField fs "password") asStr
  let name ← reqJ (getField fs "name") asStr
  let version ← reqJ (getField fs "version") NetworkVersion.decJ
  let items_handling ← optJ (getField fs "items_handling") asInt
  let tags ← reqJ (getField fs "tags") (decArr asStr)
  let uuid ← reqJ (getField fs "uuid") asStr
  let game ← reqJ (getField fs "game") asStr
  let slot_data ← reqJ (getField fs "slot_data") asBool
  some ⟨password, name, version, items_handling, tags, uuid, game, slot_data⟩

structure LocationChecks where
  locations : List Int

def LocationChecks.enc (l : LocationChecks) : List (String × Json) :=
  [("locations", encList Json.num l.locations)]

def LocationChecks.dec (fs : List (String × Json)) : Option LocationChecks := do
  let locations ← reqJ (getField fs "locations") (decArr asInt)
  some ⟨locations⟩

structure LocationScouts where
  locations : List Int
  create_as_hint : Int

def LocationScouts.enc (l : LocationScouts) : List (String × Json) :=
  [("locations", encList Json.num l.locations),
   ("create_as_hint", .num l.create_as_hint)]

def LocationScouts.dec (fs : List (String × Json)) : Option LocationScouts := do
  let locations ← reqJ (getField fs "locations") (decArr asInt)
  let create_as_hint ← reqJ (getField fs "create_as_hint") asInt
  some ⟨locations, create_as_hint⟩

structure StatusUpdate where
  status : ClientStatus

def StatusUpdate.enc (s : StatusUpdate) : List (String × Json) :=
  [("status", s.status.encJ)]

def StatusUpdate.dec (fs : List (String × Json)) : Option StatusUpdate := do
  let status ← reqJ (getField fs "status") ClientStatus.decJ
  some ⟨status⟩

structure Say where
  text : String

def Say.enc (s : Say) : List (String × Json) :=
  [("text", .str s.text)]

def Say.dec (fs : List (String × Json)) : Option Say := do
  let text ← reqJ (getField fs "text") asStr
  some ⟨text⟩

/-- GetDataPackage is the one struct whose Option field carries
skip_serializing_if Option::is_none: an absent games list is omitted from the
encoded object instead of being emitted as null. -/
structure GetDataPackage where
  games : Option (List String)

def GetDataPackage.enc (g : GetDataPackage) : List (String × Json) :=
  match g.games with
  | none => []
  | some gs => [("games", encList Json.str gs)]

def GetDataPackage.dec (fs : List (String × Json)) : Option GetDataPackage := do
  let games ← optJ (getField fs "games") (decArr asStr)
  some ⟨games⟩

structure Bounce where
  games : Option (List String)
  slots : Option (List String)
  tags : Option (List String)
  data : Json

def Bounce.enc (b : Bounce) : List (String × Json) :=
  [("games", encOpt (encList Json.str) b.games),
   ("slots", encOpt (encList Json.str) b.slots),
   ("tags", encOpt (encList Json.str) b.tags),
   ("data", b.data)]

def Bounce.dec (fs : List (String × Json)) : Option Bounce := do
  let games ← optJ (getField fs "games") (decArr asStr)
  let slots ← optJ (getField fs "slots") (decArr asStr)
  let tags ← optJ (getField fs "tags") (decArr asStr)
  let data ← reqJ (getField fs "data") asJson
  some ⟨games, slots, tags, data⟩

def Bounce.encJ (b : Bounce) : Json := .obj b.enc

def Bounce.decJ (j : Json) : Option Bounce :=
  (asObj j).bind Bounce.dec

structure Get where
  keys : List String

def Get.enc (g : Get) : List (String × Json) :=
  [("keys", encList Json.str g.keys)]

def Get.dec (fs : List (String × Json)) : Option Get := do
  let keys ← reqJ (getField fs "keys") (decArr asStr)
  some ⟨keys⟩

structure DataStorageOperation where
  replace : String
  value : Json

def DataStorageOperation.enc (o : DataStorageOperation) : List (String × Json) :=
  [("replace", .str o.replace), ("value", o.value)]

def DataStorageOperation.dec (fs : List (String × Json)) : Option DataStorageOperation := do
  let replace ← reqJ (getField fs "replace") asStr
  let value ← reqJ (getField fs "value") asJson
  some ⟨replace, value⟩

def DataStorageOperation.encJ (o : DataStorageOperation) : Json := .obj o.enc

def DataStorageOperation.decJ (j : Json) : Option DataStorageOperation :=
  (asObj j).bind DataStorageOperation.dec

structure Set where
  key : String
  default : Json
  want_reply : Bool
  operations : List DataStorageOperation

def Set.enc (s : Set) : List (String × Json) :=
  [("key", .str s.key), ("default", s.default),
   ("want_reply", .bool s.want_reply),
   ("operations", encList DataStorageOperation.encJ s.operations)]

def Set.dec (fs : List (String × Json)) : Option Set := do
  let key ← reqJ (getField fs "key") asStr
  let default ← reqJ (getField fs "default") asJson
  let want_reply ← reqJ (getField fs "want_reply") asBool
  let operations ← reqJ (getField fs "operations") (decArr DataStorageOperation.decJ)
  some ⟨key, default, want_reply, operations⟩

structure SetNotify where
  keys : List String

def SetNotify.enc (s : SetNotify) : List (String × Json) :=
  [("keys", encList Json.str s.keys)]

def SetNotify.dec (fs : List (String × Json)) : Option SetNotify := do
  let keys ← reqJ (getField fs "keys") (decArr asStr)
  some ⟨keys⟩

@[simp] theorem bounce_decJ_encJ (b : Bounce) : Bounce.decJ b.encJ = some b := by
  simp [Bounce.decJ, Bounce.encJ, Bounce.dec, Bounce.enc, getField]

@[simp] theorem dataStorageOperation_decJ_encJ (o : DataStorageOperation) :
    DataStorageOperation.decJ o.encJ = some o := by
  simp [DataStorageOperation.decJ, DataStorageOperation.encJ,
    DataStorageOperation.dec, DataStorageOperation.enc, getField]

@[simp] theorem decArr_dataStorageOperation (xs : List DataStorageOperation) :
    decArr DataStorageOperation.decJ (encList DataStorageOperation.encJ xs) = some xs := by
  simp only [decArr, encList, asArr_arr, Option.some_bind]
  exact decList_rt DataStorageOperation.decJ DataStorageOperation.encJ
    dataStorageOperation_decJ_encJ xs

@[simp] theorem connect_dec_enc (x : Json) (c : Connect) :
    Connect.dec (("cmd", x) :: c.enc) = some c := by
  simp [Connect.dec, Connect.enc, getField]

@[simp] theorem locationChecks_dec_enc (x : Json) (l : LocationChecks) :
    LocationChecks.dec (("cmd", x) :: l.enc) = some l := by
  simp [LocationChecks.dec, LocationChecks.enc, getField]

@[simp] theorem locationScouts_dec_enc (x : Json) (l : LocationScouts) :
    LocationScouts.dec (("cmd", x) :: l.enc) = some l := by
  simp [LocationScouts.dec, LocationScouts.enc, getField]

@[simp] theorem statusUpdate_dec_enc (x : Json) (s : StatusUpdate) :
    StatusUpdate.dec (("cmd", x) :: s.enc) = some s := by
  simp [StatusUpdate.dec, StatusUpdate.enc, getField]

@[simp] theorem say_dec_enc (x : Json) (s : Say) :
    Say.dec (("cmd", x) :: s.enc) = some s := by
  simp [Say.dec, Say.enc, getField]

@[simp] theorem getDataPackage_dec_enc (x : Json) (g : GetDataPackage) :
    GetDataPackage.dec (("cmd", x) :: g.enc) = some g := by
  obtain ⟨games⟩ := g
  cases games <;> simp [GetDataPackage.dec, GetDataPackage.enc, getField]

@[simp] theorem bounce_dec_enc (x : Json) (b : Bounce) :
    Bounce.dec (("cmd", x) :: b.enc) = some b := by
  simp [Bounce.dec, Bounce.enc, getField]

@[simp] theorem get_dec_enc (x : Json) (g : Get) :
    Get.dec (("cmd", x) :: g.enc) = some g := by
  simp [Get.dec, Get.enc, getField]

@[simp] theorem set_dec_enc (x : Json) (s : Set) :
    Set.dec (("cmd", x) :: s.enc) = some s := by
  simp [Set.dec, Set.enc, getField]

@[simp] theorem setNotify_dec_enc (x : Json) (s : SetNotify) :
    SetNotify.dec (("cmd", x) :: s.enc) = some s := by
  simp [SetNotify.dec, SetNotify.enc, getField]

/-! ### Server-originated payload structs (RESPONSES) -/

/-- The f32 type of the two time fields, as serde_json treats it: a finite
value (carried here as an integer: a finite f32 round-trips exactly through
serde_json thanks to shortest-representation printing, so the fractional
part plays no role in the schema claims) or one of the three non-finite
values, which serde_json serializes as null; a null (or any non-number)
does not deserialize as f32. -/
inductive F32 where
  | finite (v : Int)
  | nan
  | posInf
  | negInf
  deriving DecidableEq

def F32.isFinite : F32 → Bool
  | .finite _ => true
  | _ => false

/-- serde_json serialization of f32: non-finite values become null. -/
def F32.encJ : F32 → Json
  | .finite v => .num v
  | _ => .null

/-- serde_json deserialization into f32: only numbers are accepted. -/
def asF32 : Json → Option F32
  | .num n => some (.finite n)
  | _ => none

@[simp] theorem asF32_num (n : Int) : asF32 (.num n) = some (.finite n) := rfl

@[simp] theorem f32_encJ_finite (v : Int) : F32.encJ (.finite v) = .num v := rfl

@[simp] theorem optJ_f32_none :
    optJ (some (encOpt F32.encJ none)) asF32 = some none := rfl

@[simp] theorem optJ_f32_finite (v : Int) :
    optJ (some (encOpt F32.encJ (some (.finite v)))) asF32 =
      some (some (.finite v)) := rfl

/-- RoomInfo. The source type of time is f32, embedded as F32. -/
structure RoomInfo where
  version : NetworkVersion
  generator_version : NetworkVersion
  tags : List String
  password : Bool
  permissions : PermissionsMap
  hint_cost : Int
  location_check_points : Int
  games : Option (List String)
  datapackage_checksums : List (String × String)
  seed_name : String
  time : F32

def RoomInfo.enc (r : RoomInfo) : List (String × Json) :=
  [("version", r.version.encJ), ("generator_version", r.generator_version.encJ),
   ("tags", encList Json.str r.tags), ("password", .bool r.password),
   ("permissions", r.permissions.encJ), ("hint_cost", .num r.hint_cost),
   ("location_check_points", .num r.location_check_points),
   ("games", encOpt (encList Json.str) r.games),
   ("datapackage_checksums", encObjMap Json.str r.datapackage_checksums),
   ("seed_name", .str r.seed_name), ("time", r.time.encJ)]

def RoomInfo.dec (fs : List (String × Json)) : Option RoomInfo := do
  let version ← reqJ (getField fs "version") NetworkVersion.decJ
  let generator_version ← reqJ (getField fs "generator_version") NetworkVersion.decJ
  let tags ← reqJ (getField fs "tags") (decArr asStr)
  let password ← reqJ (getField fs "password") asBool
  let permissions ← reqJ (getField fs "permissions") PermissionsMap.decJ
  let hint_cost ← reqJ (getField fs "hint_cost") asInt
  let location_check_points ← reqJ (getField fs "location_check_points") asInt
  let games ← optJ (getField fs "games") (decArr asStr)
  let datapackage_checksums ← reqJ (getField fs "datapackage_checksums") (decObjMap asStr)
  let seed_name ← reqJ (getField fs "seed_name") asStr
  let time ← reqJ (getField fs "time") asF32
  some ⟨version, generator_version, tags, password, permissions, hint_cost,
    location_check_points, games, datapackage_checksums, seed_name, time⟩

structure ConnectionRefused where
  errors : List String

def ConnectionRefused.enc (c : ConnectionRefused) : List (String × Json) :=
  [("errors", encList Json.str c.errors)]

def ConnectionRefused.dec (fs : List (String × Json)) : Option ConnectionRefused := do
  let errors ← reqJ (getField fs "errors") (decArr asStr)
  some ⟨errors⟩

structure Connected where
  team : Int
  slot : Int
  players : List NetworkPlayer
  missing_locations : List Int
  checked_locations : List Int
  slot_data : Json
  slot_info : List (String × NetworkSlot)

def Connected.enc (c : Connected) : List (String × Json) :=
  [("team", .num c.team), ("slot", .num c.slot),
   ("players", encList NetworkPlayer.encJ c.players),
   ("missing_locations", encList Json.num c.missing_locations),
   ("checked_locations", encList Json.num c.checked_locations),
   ("slot_data", c.slot_data),
   ("slot_info", encObjMap NetworkSlot.encJ c.slot_info)]

def Connected.dec (fs : List (String × Json)) : Option Connected := do
  let team ← reqJ (getField fs "team") asInt
  let slot ← reqJ (getField fs "slot") asInt
  let players ← reqJ (getField fs "players") (decArr NetworkPlayer.decJ)
  let missing_locations ← reqJ (getField fs "missing_locations") (decArr asInt)
  let checked_locations ← reqJ (getField fs "checked_locations") (decArr asInt)
  let slot_data ← reqJ (getField fs "slot_data") asJson
  let slot_info ← reqJ (getField fs "slot_info") (decObjMap NetworkSlot.decJ)
  some ⟨team, slot, players, missing_locations, checked_locations, slot_data, slot_info⟩

structure ReceivedItems where
  index : Int
  items : List NetworkItem

def ReceivedItems.enc (r : ReceivedItems) : List (String × Json) :=
  [("index", .num r.index), ("items", encList NetworkItem.encJ r.items)]

def ReceivedItems.dec (fs : List (String × Json)) : Option ReceivedItems := do
  let index ← reqJ (getField fs "index") asInt
  let items ← reqJ (getField fs "items") (decArr NetworkItem.decJ)
  some ⟨index, items⟩

structure LocationInfo where
  locations : List NetworkItem

def LocationInfo.enc (l : LocationInfo) : List (String × Json) :=
  [("locations", encList NetworkItem.encJ l.locations)]

def LocationInfo.dec (fs : List (String × Json)) : Option LocationInfo := do
  let locations ← reqJ (getField fs "locations") (decArr NetworkItem.decJ)
  some ⟨locations⟩

/-- RoomUpdate: every field is an Option, none carries a skip attribute, so
all fields are emitted (null when absent) and all may be missing on decode.
Note the differences from RoomInfo recorded by the source itself: there is no
generator_version, permissions is a plain map of string to Permission, and
the checksum map is replaced by datapackage_versions, a map of string to
integer. time is Option f32 in the source, embedded as Option F32. -/
structure RoomUpdate where
  version : Option NetworkVersion
  tags : Option (List String)
  password : Option Bool
  permissions : Option (List (String × Permission))
  hint_cost : Option Int
  location_check_points : Option Int
  games : Option (List String)
  datapackage_versions : Option (List (String × Int))
  seed_name : Option String
  time : Option F32
  hint_points : Option Int
  players : Option (List NetworkPlayer)
  checked_locations : Option (List Int)
  missing_locations : Option (List Int)

def RoomUpdate.enc (r : RoomUpdate) : List (String × Json) :=
  [("version", encOpt NetworkVersion.encJ r.version),
   ("tags", encOpt (encList Json.str) r.tags),
   ("password", encOpt Json.bool r.password),
   ("permissions", encOpt (encObjMap Permission.encJ) r.permissions),
   ("hint_cost", encOpt Json.num r.hint_cost),
   ("location_check_points", encOpt Json.num r.location_check_points),
   ("games", encOpt (encList Json.str) r.games),
   ("datapackage_versions", encOpt (encObjMap Json.num) r.datapackage_versions),
   ("seed_name", encOpt Json.str r.seed_name),
   ("time", encOpt F32.encJ r.time),
   ("hint_points", encOpt Json.num r.hint_points),
   ("players", encOpt (encList NetworkPlayer.encJ) r.players),
   ("checked_locations", encOpt (encList Json.num) r.checked_locations),
   ("missing_locations", encOpt (encList Json.num) r.missing_locations)]

def RoomUpdate.dec (fs : List (String × Json)) : Option RoomUpdate := do
  let version ← optJ (getField fs "version") NetworkVersion.decJ
  let tags ← optJ (getField fs "tags") (decArr asStr)
  let password ← optJ (getField fs "password") asBool
  let permissions ← optJ (getField fs "permissions") (decObjMap Permission.decJ)
  let hint_cost ← optJ (getField fs "hint_cost") asInt
  let location_check_points ← optJ (getField fs "location_check_points") asInt
  let games ← optJ (getField fs "games") (decArr asStr)
  let datapackage_versions ← optJ (getField fs "datapackage_versions") (decObjMap asInt)
  let seed_name ← optJ (getField fs "seed_name") asStr
  let time ← optJ (getField fs "time") asF32
  let hint_points ← optJ (getField fs "hint_points") asInt
  let players ← optJ (getField fs "players") (decArr NetworkPlayer.decJ)
  let checked_locations ← optJ (getField fs "checked_locations") (decArr asInt)
  let missing_locations ← optJ (getField fs "missing_locations") (decArr asInt)
  some ⟨version, tags, password, permissions, hint_cost, location_check_points,
    games, datapackage_versions, seed_name, time, hint_points, players,
    checked_locations, missing_locations⟩

structure Print where
  text : String

def Print.enc (p : Print) : List (String × Json) :=
  [("text", .str p.text)]

def Print.dec (fs : List (String × Json)) : Option Print := do
  let text ← reqJ (getField fs "text") asStr
  some ⟨text⟩

/-- JSONMessagePart: the field written r#type in the source serializes as
"type". All fields are Option without skip attributes. -/
structure JSONMessagePart where
  type : Option String
  text : Option String
  color : Option String
  flags : Option Int
  player : Option Int

def JSONMessagePart.enc (p : JSONMessagePart) : List (String × Json) :=
  [("type", encOpt Json.str p.type), ("text", encOpt Json.str p.text),
   ("color", encOpt Json.str p.color), ("flags", encOpt Json.num p.flags),
   ("player", encOpt Json.num p.player)]

def JSONMessagePart.dec (fs : List (String × Json)) : Option JSONMessagePart := do
  let type ← optJ (getField fs "type") asStr
  let text ← optJ (getField fs "text") asStr
  let color ← optJ (getField fs "color") asStr
  let flags ← optJ (getField fs "flags") asInt
  let player ← optJ (getField fs "player") asInt
  some ⟨type, text, color, flags, player⟩

def JSONMessagePart.encJ (p : JSONMessagePart) : Json := .obj p.enc

def JSONMessagePart.decJ (j : Json) : Option JSONMessagePart :=
  (asObj j).bind JSONMessagePart.dec

/-- PrintJSON: data is required, the hint payload fields are Option without
skip attributes. The field written r#type in the source serializes as
"type". -/
structure PrintJSON where
  data : List JSONMessagePart
  type : Option String
  receiving : Option Int
  item : Option NetworkItem
  found : Option Bool
  countdown : Option Int

def PrintJSON.enc (p : PrintJSON) : List (String × Json) :=
  [("data", encList JSONMessagePart.encJ p.data),
   ("type", encOpt Json.str p.type),
   ("receiving", encOpt Json.num p.receiving),
   ("item", encOpt NetworkItem.encJ p.item),
   ("found", encOpt Json.bool p.found),
   ("countdown", encOpt Json.num p.countdown)]

def PrintJSON.dec (fs : List (String × Json)) : Option PrintJSON := do
  let data ← reqJ (getField fs "data") (decArr JSONMessagePart.decJ)
  let type ← optJ (getField fs "type") asStr
  let receiving ← optJ (getField fs "receiving") asInt
  let item ← optJ (getField fs "item") NetworkItem.decJ
  let found ← optJ (getField fs "found") asBool
  let countdown ← optJ (getField fs "countdown") asInt
  some ⟨data, type, receiving, item, found, countdown⟩

structure GameData where
  item_name_to_id : List (String × Int)
  location_name_to_id : List (String × Int)

def GameData.enc (g : GameData) : List (String × Json) :=
  [("item_name_to_id", encObjMap Json.num g.item_name_to_id),
   ("location_name_to_id", encObjMap Json.num g.location_name_to_id)]

def GameData.dec (fs : List (String × Json)) : Option GameData := do
  let item_name_to_id ← reqJ (getField fs "item_name_to_id") (decObjMap asInt)
  let location_name_to_id ← reqJ (getField fs "location_name_to_id") (decObjMap asInt)
  some ⟨item_name_to_id, location_name_to_id⟩

def GameData.encJ (g : GameData) : Json := .obj g.enc

def GameData.decJ (j : Json) : Option GameData :=
  (asObj j).bind GameData.dec

structure DataPackageObject where
  games : List (String × GameData)

def DataPackageObject.enc (d : DataPackageObject) : List (String × Json) :=
  [("games", encObjMap GameData.encJ d.games)]

def DataPackageObject.dec (fs : List (String × Json)) : Option DataPackageObject := do
  let games ← reqJ (getField fs "games") (decObjMap GameData.decJ)
  some ⟨games⟩

def DataPackageObject.encJ (d : DataPackageObject) : Json := .obj d.enc

def DataPackageObject.decJ (j : Json) : Option DataPackageObject :=
  (asObj j).bind DataPackageObject.dec

structure DataPackage where
  data : DataPackageObject

def DataPackage.enc (d : DataPackage) : List (String × Json) :=
  [("data", d.data.encJ)]

def DataPackage.dec (fs : List (String × Json)) : Option DataPackage := do
  let data ← reqJ (getField fs "data") DataPackageObject.decJ
  some ⟨data⟩

/-- Bounced: slots are numeric here, unlike the originating Bounce where they
are strings; data is the original Bounce payload. -/
structure Bounced where
  games : Option (List String)
  slots : Option (List Int)
  tags : Option (List String)
  data : Bounce

def Bounced.enc (b : Bounced) : List (String × Json) :=
  [("games", encOpt (encList Json.str) b.games),
   ("slots", encOpt (encList Json.num) b.slots),
   ("tags", encOpt (encList Json.str) b.tags),
   ("data", b.data.encJ)]

def Bounced.dec (fs : List (String × Json)) : Option Bounced := do
  let games ← optJ (getField fs "games") (decArr asStr)
  let slots ← optJ (getField fs "slots") (decArr asInt)
  let tags ← optJ (getField fs "tags") (decArr asStr)
  let data ← reqJ (getField fs "data") Bounce.decJ
  some ⟨games, slots, tags, data⟩

/-- InvalidPacket: the field written r#type in the source serializes as
"type". -/
structure InvalidPacket where
  type : String
  original_cmd : Option String
  text : String

def InvalidPacket.enc (p : InvalidPacket) : List (String × Json) :=
  [("type", .str p.type), ("original_cmd", encOpt Json.str p.original_cmd),
   ("text", .str p.text)]

def InvalidPacket.dec (fs : List (String × Json)) : Option InvalidPacket := do
  let type ← reqJ (getField fs "type") asStr
  let original_cmd ← optJ (getField fs "original_cmd") asStr
  let text ← reqJ (getField fs "text") asStr
  some ⟨type, original_cmd, text⟩

structure Retrieved where
  keys : List (String × Json)

def Retrieved.enc (r : Retrieved) : List (String × Json) :=
  [("keys", encObjMap id r.keys)]

def Retrieved.dec (fs : List (String × Json)) : Option Retrieved := do
  let keys ← reqJ (getField fs "keys") (decObjMap asJson)
  some ⟨keys⟩

structure SetReply where
  key : String
  value : Json
  original_value : Json

def SetReply.enc (s : SetReply) : List (String × Json) :=
  [("key", .str s.key), ("value", s.value), ("original_value", s.original_value)]

def SetReply.dec (fs : List (String × Json)) : Option SetReply := do
  let key ← reqJ (getField fs "key") asStr
  let value ← reqJ (getField fs "value") asJson
  let original_value ← reqJ (getField fs "original_value") asJson
  some ⟨key, value, original_value⟩

@[simp] theorem jsonMessagePart_decJ_encJ (p : JSONMessagePart) :
    JSONMessagePart.decJ p.encJ = some p := by
  simp [JSONMessagePart.decJ, JSONMessagePart.encJ, JSONMessagePart.dec,
    JSONMessagePart.enc, getField]

@[simp] theorem decArr_jsonMessagePart (xs : List JSONMessagePart) :
    decArr JSONMessagePart.decJ (encList JSONMessagePart.encJ xs) = some xs := by
  simp only [decArr, encList, asArr_arr, Option.some_bind]
  exact decList_rt JSONMessagePart.decJ JSONMessagePart.encJ
    jsonMessagePart_decJ_encJ xs

@[simp] theorem gameData_decJ_encJ (g : GameData) : GameData.decJ g.encJ = some g := by
  simp [GameData.decJ, GameData.encJ, GameData.dec, GameData.enc, getField]

@[simp] theorem decObjMap_gameData (m : List (String × GameData)) :
    decObjMap GameData.decJ (encObjMap GameData.encJ m) = some m := by
  simp only [decObjMap, encObjMap, asObj_obj, Option.some_bind]
  exact decPairs_rt GameData.decJ GameData.encJ gameData_decJ_encJ m

@[simp] theorem dataPackageObject_decJ_encJ (d : DataPackageObject) :
    DataPackageObject.decJ d.encJ = some d := by
  simp [DataPackageObject.decJ, DataPackageObject.encJ, DataPackageObject.dec,
    DataPackageObject.enc, getField]

theorem roomInfo_dec_enc (x : Json) (r : RoomInfo)
    (h : r.time.isFinite = true) :
    RoomInfo.dec (("cmd", x) :: r.enc) = some r := by
  obtain ⟨ver, gver, tags, pw, perms, hcost, lcp, games, dpc, sn, time⟩ := r
  cases time with
  | finite v => simp [RoomInfo.dec, RoomInfo.enc, getField]
  | nan => simp [F32.isFinite] at h
  | posInf => simp [F32.isFinite] at h
  | negInf => simp [F32.isFinite] at h

@[simp] theorem connectionRefused_dec_enc (x : Json) (c : ConnectionRefused) :
    ConnectionRefused.dec (("cmd", x) :: c.enc) = some c := by
  simp [ConnectionRefused.dec, ConnectionRefused.enc, getField]

@[simp] theorem connected_dec_enc (x : Json) (c : Connected) :
    Connected.dec (("cmd", x) :: c.enc) = some c := by
  simp [Connected.dec, Connected.enc, getField]

@[simp] theorem receivedItems_dec_enc (x : Json) (r : ReceivedItems) :
    ReceivedItems.dec (("cmd", x) :: r.enc) = some r := by
  simp [ReceivedItems.dec, ReceivedItems.enc, getField]

@[simp] theorem locationInfo_dec_enc (x : Json) (l : LocationInfo) :
    LocationInfo.dec (("cmd", x) :: l.enc) = some l := by
  simp [LocationInfo.dec, LocationInfo.enc, getField]

theorem roomUpdate_dec_enc (x : Json) (r : RoomUpdate)
    (h : (match r.time with | none => true | some t => t.isFinite) = true) :
    RoomUpdate.dec (("cmd", x) :: r.enc) = some r := by
  obtain ⟨ver, tags, pw, perms, hcost, lcp, games, dpv, sn, time, hp, pl, cl, ml⟩ := r
  rcases time with _ | t
  · simp [RoomUpdate.dec, RoomUpdate.enc, getField]
  · cases t with
    | finite v => simp [RoomUpdate.dec, RoomUpdate.enc, getField]
    | nan => simp [F32.isFinite] at h
    | posInf => simp [F32.isFinite] at h
    | negInf => simp [F32.isFinite] at h

@[simp] theorem print_dec_enc (x : Json) (p : Print) :
    Print.dec (("cmd", x) :: p.enc) = some p := by
  simp [Print.dec, Print.enc, getField]

@[simp] theorem printJSON_dec_enc (x : Json) (p : PrintJSON) :
    PrintJSON.dec (("cmd", x) :: p.enc) = some p := by
  simp [PrintJSON.dec, PrintJSON.enc, getField]

@[simp] theorem dataPackage_dec_enc (x : Json) (d : DataPackage) :
    DataPackage.dec (("cmd", x) :: d.enc) = some d := by
  simp [DataPackage.dec, DataPackage.enc, getField]

@[simp] theorem bounced_dec_enc (x : Json) (b : Bounced) :
    Bounced.dec (("cmd", x) :: b.enc) = some b := by
  simp [Bounced.dec, Bounced.enc, getField]

@[simp] theorem invalidPacket_dec_enc (x : Json) (p : InvalidPacket) :
    InvalidPacket.dec (("cmd", x) :: p.enc) = some p := by
  simp [InvalidPacket.dec, InvalidPacket.enc, getField]

@[simp] theorem retrieved_dec_enc (x : Json) (r : Retrieved) :
    Retrieved.dec (("cmd", x) :: r.enc) = some r := by
  simp [Retrieved.dec, Retrieved.enc, getField]

@[simp] theorem setReply_dec_enc (x : Json) (s : SetReply) :
    SetReply.dec (("cmd", x) :: s.enc) = some s := by
  simp [SetReply.dec, SetReply.enc, getField]

/-! ### The two internally tagged unions -/

inductive ClientMessage where
  | Connect (c : Connect)
  | Sync
  | LocationChecks (c : LocationChecks)
  | LocationScouts (c : LocationScouts)
  | StatusUpdate (c : StatusUpdate)
  | Say (c : Say)
  | GetDataPackage (c : GetDataPackage)
  | Bounce (c : Bounce)
  | Get (c : Get)
  | Set (c : Set)
  | SetNotify (c : SetNotify)

inductive ServerMessage where
  | RoomInfo (c : RoomInfo)
  | ConnectionRefused (c : ConnectionRefused)
  | Connected (c : Connected)
  | ReceivedItems (c : ReceivedItems)
  | LocationInfo (c : LocationInfo)
  | RoomUpdate (c : RoomUpdate)
  | Print (c : Print)
  | PrintJSON (c : PrintJSON)
  | DataPackage (c : DataPackage)
  | Bounced (c : Bounced)
  | InvalidPacket (c : InvalidPacket)
  | Retrieved (c : Retrieved)
  | SetReply (c : SetReply)

/-- The serde tag of a client message: the variant name. -/
def ClientMessage.cmdName : ClientMessage → String
  | .Connect _ => "Connect"
  | .Sync => "Sync"
  | .LocationChecks _ => "LocationChecks"
  | .LocationScouts _ => "LocationScouts"
  | .StatusUpdate _ => "StatusUpdate"
  | .Say _ => "Say"
  | .GetDataPackage _ => "GetDataPackage"
  | .Bounce _ => "Bounce"
  | .Get _ => "Get"
  | .Set _ => "Set"
  | .SetNotify _ => "SetNotify"

/-- The serde tag of a server message: the variant name. -/
def ServerMessage.cmdName : ServerMessage → String
  | .RoomInfo _ => "RoomInfo"
  | .ConnectionRefused _ => "ConnectionRefused"
  | .Connected _ => "Connected"
  | .ReceivedItems _ => "ReceivedItems"
  | .LocationInfo _ => "LocationInfo"
  | .RoomUpdate _ => "RoomUpdate"
  | .Print _ => "Print"
  | .PrintJSON _ => "PrintJSON"
  | .DataPackage _ => "DataPackage"
  | .Bounced _ => "Bounced"
  | .InvalidPacket _ => "InvalidPacket"
  | .Retrieved _ => "Retrieved"
  | .SetReply _ => "SetReply"

/-- The closed set of client cmd discriminators. -/
def clientCmds : List String :=
  ["Connect", "Sync", "LocationChecks", "LocationScouts", "StatusUpdate",
   "Say", "GetDataPackage", "Bounce", "Get", "Set", "SetNotify"]

/-- The closed set of server cmd discriminators. -/
def serverCmds : List String :=
  ["RoomInfo", "ConnectionRefused", "Connected", "ReceivedItems",
   "LocationInfo", "RoomUpdate", "Print", "PrintJSON", "DataPackage",
   "Bounced", "InvalidPacket", "Retrieved", "SetReply"]

/-- serde internally tagged serialization: one JSON object, the "cmd" tag a
sibling of the payload fields; a unit variant carries only the tag. -/
def encodeClientMessage : ClientMessage → Json
  | .Connect c => .obj (("cmd", .str "Connect") :: c.enc)
  | .Sync => .obj [("cmd", .str "Sync")]
  | .LocationChecks c => .obj (("cmd", .str "LocationChecks") :: c.enc)
  | .LocationScouts c => .obj (("cmd", .str "LocationScouts") :: c.enc)
  | .StatusUpdate c => .obj (("cmd", .str "StatusUpdate") :: c.enc)
  | .Say c => .obj (("cmd", .str "Say") :: c.enc)
  | .GetDataPackage c => .obj (("cmd", .str "GetDataPackage") :: c.enc)
  | .Bounce c => .obj (("cmd", .str "Bounce") :: c.enc)
  | .Get c => .obj (("cmd", .str "Get") :: c.enc)
  | .Set c => .obj (("cmd", .str "Set") :: c.enc)
  | .SetNotify c => .obj (("cmd", .str "SetNotify") :: c.enc)

def encodeServerMessage : ServerMessage → Json
  | .RoomInfo c => .obj (("cmd", .str "RoomInfo") :: c.enc)
  | .ConnectionRefused c => .obj (("cmd", .str "ConnectionRefused") :: c.enc)
  | .Connected c => .obj (("cmd", .str "Connected") :: c.enc)
  | .ReceivedItems c => .obj (("cmd", .str "ReceivedItems") :: c.enc)
  | .LocationInfo c => .obj (("cmd", .str "LocationInfo") :: c.enc)
  | .RoomUpdate c => .obj (("cmd", .str "RoomUpdate") :: c.enc)
  | .Print c => .obj (("cmd", .str "Print") :: c.enc)
  | .PrintJSON c => .obj (("cmd", .str "PrintJSON") :: c.enc)
  | .DataPackage c => .obj (("cmd", .str "DataPackage") :: c.enc)
  | .Bounced c => .obj (("cmd", .str "Bounced") :: c.enc)
  | .InvalidPacket c => .obj (("cmd", .str "InvalidPacket") :: c.enc)
  | .Retrieved c => .obj (("cmd", .str "Retrieved") :: c.enc)
  | .SetReply c => .obj (("cmd", .str "SetReply") :: c.enc)

/-- serde internally tagged deserialization: the input must be an object, the
"cmd" tag must be a known string, then the matching payload struct is decoded
from the same object by field name, unknown sibling fields ignored; a unit
variant (Sync) ignores the whole remaining content. An unknown tag, a missing
tag, or a payload mismatch is a decode error (the MalformedMessage of the
spec), never a panic. -/
def decodeClientMessage (j : Json) : Option ClientMessage := do
  let fs ← asObj j
  let tag ← reqJ (getField fs "cmd") asStr
  match tag with
  | "Connect" => (Connect.dec fs).map .Connect
  | "Sync" => some .Sync
  | "LocationChecks" => (LocationChecks.dec fs).map .LocationChecks
  | "LocationScouts" => (LocationScouts.dec fs).map .LocationScouts
  | "StatusUpdate" => (StatusUpdate.dec fs).map .StatusUpdate
  | "Say" => (Say.dec fs).map .Say
  | "GetDataPackage" => (GetDataPackage.dec fs).map .GetDataPackage
  | "Bounce" => (Bounce.dec fs).map .Bounce
  | "Get" => (Get.dec fs).map .Get
  | "Set" => (Set.dec fs).map .Set
  | "SetNotify" => (SetNotify.dec fs).map .SetNotify
  | _ => none

def decodeServerMessage (j : Json) : Option ServerMessage := do
  let fs ← asObj j
  let tag ← reqJ (getField fs "cmd") asStr
  match tag with
  | "RoomInfo" => (RoomInfo.dec fs).map .RoomInfo
  | "ConnectionRefused" => (ConnectionRefused.dec fs).map .ConnectionRefused
  | "Connected" => (Connected.dec fs).map .Connected
  | "ReceivedItems" => (ReceivedItems.dec fs).map .ReceivedItems
  | "LocationInfo" => (LocationInfo.dec fs).map .LocationInfo
  | "RoomUpdate" => (RoomUpdate.dec fs).map .RoomUpdate
  | "Print" => (Print.dec fs).map .Print
  | "PrintJSON" => (PrintJSON.dec fs).map .PrintJSON
  | "DataPackage" => (DataPackage.dec fs).map .DataPackage
  | "Bounced" => (Bounced.dec fs).map .Bounced
  | "InvalidPacket" => (InvalidPacket.dec fs).map .InvalidPacket
  | "Retrieved" => (Retrieved.dec fs).map .Retrieved
  | "SetReply" => (SetReply.dec fs).map .SetReply
  | _ => none

theorem decode_encode_client (m : ClientMessage) :
    decodeClientMessage (encodeClientMessage m) = some m := by
  cases m <;> simp [decodeClientMessage, encodeClientMessage, getField]

/-- The f32-valued time fields of a server message are finite (vacuously
true for every variant other than RoomInfo and RoomUpdate): exactly the
condition under which the serde_json f32 round trip is lossless. -/
def ServerMessage.timeFinite : ServerMessage → Bool
  | .RoomInfo r => r.time.isFinite
  | .RoomUpdate r => match r.time with | none => true | some t => t.isFinite
  | _ => true

theorem decode_encode_server (m : ServerMessage) (h : m.timeFinite = true) :
    decodeServerMessage (encodeServerMessage m) = some m := by
  cases m with
  | RoomInfo c =>
    simp only [ServerMessage.timeFinite] at h
    simp [decodeServerMessage, encodeServerMessage, getField,
      roomInfo_dec_enc (Json.str "RoomInfo") c h]
  | RoomUpdate c =>
    simp only [ServerMessage.timeFinite] at h
    simp [decodeServerMessage, encodeServerMessage, getField,
      roomUpdate_dec_enc (Json.str "RoomUpdate") c h]
  | ConnectionRefused c => simp [decodeServerMessage, encodeServerMessage, getField]
  | Connected c => simp [decodeServerMessage, encodeServerMessage, getField]
  | ReceivedItems c => simp [decodeServerMessage, encodeServerMessage, getField]
  | LocationInfo c => simp [decodeServerMessage, encodeServerMessage, getField]
  | Print c => simp [decodeServerMessage, encodeServerMessage, getField]
  | PrintJSON c => simp [decodeServerMessage, encodeServerMessage, getField]
  | DataPackage c => simp [decodeServerMessage, encodeServerMessage, getField]
  | Bounced c => simp [decodeServerMessage, encodeServerMessage, getField]
  | InvalidPacket c => simp [decodeServerMessage, encodeServerMessage, getField]
  | Retrieved c => simp [decodeServerMessage, encodeServerMessage, getField]
  | SetReply c => simp [decodeServerMessage, encodeServerMessage, getField]

/-! ### Hint converters -/

/-- HintData, the canonical hint shape both converters target. -/
structure HintData where
  receiving : Int
  item : NetworkItem
  found : Bool
  is_important : Bool
  deriving DecidableEq

/-- The flat legacy Hint record: always fully populated. -/
structure Hint where
  receiving_player : Int
  finding_player : Int
  location : Int
  item : Int
  found : Bool
  entrance : String
  item_flags : Int
  deriving DecidableEq

/-- The impl From of PrintJSON for HintData. The three expect calls panic, in
evaluation order item, receiving, found, each with the expect message of the
source. Modelled from the spec: the flags-to-importance predicate
is_important lives in crate::utils, which is not part of the given source
(the spec calls it an opaque external predicate supplied by the game-logic
collaborator), so the converter takes it as the parameter imp and every
statement holds for an arbitrary predicate. -/
def HintData.fromPrintJSON (imp : Int → Bool) (value : PrintJSON) : RustResult HintData :=
  match value.item with
  | none => .panicked "`item` field is required, but missing from PrintJSON packet"
  | some item =>
    match value.receiving with
    | none => .panicked "`receiving` field is required, but missing from PrintJSON packet"
    | some receiving =>
      match value.found with
      | none => .panicked "`found` field is required, but missing from PrintJSON packet"
      | some found =>
        .ok { receiving := receiving, item := item, found := found,
              is_important := imp item.flags }

/-- The impl From of Hint for HintData: total, repackages the flat fields
into a NetworkItem and re-derives is_important from item_flags through the
same predicate (see HintData.fromPrintJSON for the imp parameter). -/
def HintData.fromHint (imp : Int → Bool) (value : Hint) : HintData :=
  { receiving := value.receiving_player,
    item := { item := value.item, location := value.location,
              player := value.finding_player, flags := value.item_flags },
    found := value.found,
    is_important := imp value.item_flags }

/-! ### Discriminator dispatch helpers -/

theorem decodeClient_unknown_cmd (fs : List (String × Json)) (s : String)
    (hc : getField fs "cmd" = some (.str s)) (hs : s ∉ clientCmds) :
    decodeClientMessage (.obj fs) = none := by
  simp [decodeClientMessage, hc]
  split <;> simp_all [clientCmds]

theorem decodeServer_unknown_cmd (fs : List (String × Json)) (s : String)
    (hc : getField fs "cmd" = some (.str s)) (hs : s ∉ serverCmds) :
    decodeServerMessage (.obj fs) = none := by
  simp [decodeServerMessage, hc]
  split <;> simp_all [serverCmds]

theorem decodeClient_cmd_of_some (fs : List (String × Json)) (m : ClientMessage)
    (h : decodeClientMessage (.obj fs) = some m) :
    getField fs "cmd" = some (.str m.cmdName) := by
  cases hc : getField fs "cmd" with
  | none => simp [decodeClientMessage, hc] at h
  | some jv =>
    cases jv with
    | str s =>
      simp [decodeClientMessage, hc] at h
      split at h <;>
        first
          | exact Option.noConfusion h
          | (obtain ⟨c, hd, hm⟩ := Option.map_eq_some'.mp h
             subst hm
             rfl)
          | (cases h
             rfl)
    | null => simp [decodeClientMessage, hc, asStr] at h
    | bool b => simp [decodeClientMessage, hc, asStr] at h
    | num n => simp [decodeClientMessage, hc, asStr] at h
    | arr xs => simp [decodeClientMessage, hc, asStr] at h
    | obj fs2 => simp [decodeClientMessage, hc, asStr] at h

theorem decodeServer_cmd_of_some (fs : List (String × Json)) (m : ServerMessage)
    (h : decodeServerMessage (.obj fs) = some m) :
    getField fs "cmd" = some (.str m.cmdName) := by
  cases hc : getField fs "cmd" with
  | none => simp [decodeServerMessage, hc] at h
  | some jv =>
    cases jv with
    | str s =>
      simp [decodeServerMessage, hc] at h
      split at h <;>
        first
          | exact Option.noConfusion h
          | (obtain ⟨c, hd, hm⟩ := Option.map_eq_some'.mp h
             subst hm
             rfl)
    | null => simp [decodeServerMessage, hc, asStr] at h
    | bool b => simp [decodeServerMessage, hc, asStr] at h
    | num n => simp [decodeServerMessage, hc, asStr] at h
    | arr xs => simp [decodeServerMessage, hc, asStr] at h
    | obj fs2 => simp [decodeServerMessage, hc, asStr] at h

/-! ### Unknown sibling fields are ignored

Each payload decoder reads only its declared field names, so appending a
field with any other name to the object leaves decoding unchanged. -/

theorem getField_append_ne (fs : List (String × Json)) (k : String) (v : Json)
    (target : String) (h : target ≠ k) :
    getField (fs ++ [(k, v)]) target = getField fs target := by
  induction fs with
  | nil =>
    simp only [List.nil_append, getField]
    rw [if_neg (fun he => h he.symm)]
  | cons p rest ih =>
    obtain ⟨k1, v1⟩ := p
    by_cases hk : k1 = target <;> simp [getField, hk, ih]

/-- The serde field names of Connect. -/
def Connect.fields : List String :=
  ["password", "name", "version", "items_handling", "tags", "uuid", "game",
   "slot_data"]

theorem connect_dec_congr (fs fs2 : List (String × Json))
    (h : ∀ k ∈ Connect.fields, getField fs2 k = getField fs k) :
    Connect.dec fs2 = Connect.dec fs := by
  simp only [Connect.dec,
    h "password" (by simp [Connect.fields]),
    h "name" (by simp [Connect.fields]),
    h "version" (by simp [Connect.fields]),
    h "items_handling" (by simp [Connect.fields]),
    h "tags" (by simp [Connect.fields]),
    h "uuid" (by simp [Connect.fields]),
    h "game" (by simp [Connect.fields]),
    h "slot_data" (by simp [Connect.fields])]

/-- The serde field names of LocationChecks. -/
def LocationChecks.fields : List String :=
  ["locations"]

theorem locationChecks_dec_congr (fs fs2 : List (String × Json))
    (h : ∀ k ∈ LocationChecks.fields, getField fs2 k = getField fs k) :
    LocationChecks.dec fs2 = LocationChecks.dec fs := by
  simp only [LocationChecks.dec,
    h "locations" (by simp [LocationChecks.fields])]

/-- The serde field names of LocationScouts. -/
def LocationScouts.fields : List String :=
  ["locations", "create_as_hint"]

theorem locationScouts_dec_congr (fs fs2 : List (String × Json))
    (h : ∀ k ∈ LocationScouts.fields, getField fs2 k = getField fs k) :
    LocationScouts.dec fs2 = LocationScouts.dec fs := by
  simp only [LocationScouts.dec,
    h "locations" (by simp [LocationScouts.fields]),
    h "create_as_hint" (by simp [LocationScouts.fields])]

/-- The serde field names of StatusUpdate. -/
def StatusUpdate.fields : List String :=
  ["status"]

theorem statusUpdate_dec_congr (fs fs2 : List (String × Json))
    (h : ∀ k ∈ StatusUpdate.fields, getField fs2 k = getField fs k) :
    StatusUpdate.dec fs2 = StatusUpdate.dec fs := by
  simp only [StatusUpdate.dec,
    h "status" (by simp [StatusUpdate.fields])]

/-- The serde field names of Say. -/
def Say.fields : List String :=
  ["text"]

theorem say_dec_congr (fs fs2 : List (String × Json))
    (h : ∀ k ∈ Say.fields, getField fs2 k = getField fs k) :
    Say.dec fs2 = Say.dec fs := by
  simp only [Say.dec,
    h "text" (by simp [Say.fields])]

/-- The serde field names of GetDataPackage. -/
def GetDataPackage.fields : List String :=
  ["games"]

theorem getDataPackage_dec_congr (fs fs2 : List (String × Json))
    (h : ∀ k ∈ GetDataPackage.fields, getField fs2 k = getField fs k) :
    GetDataPackage.dec fs2 = GetDataPackage.dec fs := by
  simp only [GetDataPackage.dec,
    h "games" (by simp [GetDataPackage.fields])]

/-- The serde field names of Bounce. -/
def Bounce.fields : List String :=
  ["games", "slots", "tags", "data"]

theorem bounce_dec_congr (fs fs2 : List (String × Json))
    (h : ∀ k ∈ Bounce.fields, getField fs2 k = getField fs k) :
    Bounce.dec fs2 = Bounce.dec fs := by
  simp only [Bounce.dec,
    h "games" (by simp [Bounce.fields]),
    h "slots" (by simp [Bounce.fields]),
    h "tags" (by simp [Bounce.fields]),
    h "data" (by simp [Bounce.fields])]

/-- The serde field names of Get. -/
def Get.fields : List String :=
  ["keys"]

theorem get_dec_congr (fs fs2 : List (String × Json))
    (h : ∀ k ∈ Get.fields, getField fs2 k = getField fs k) :
    Get.dec fs2 = Get.dec fs := by
  simp only [Get.dec,
    h "keys" (by simp [Get.fields])]

/-- The serde field names of Set. -/
def Set.fields : List String :=
  ["key", "default", "want_reply", "operations"]

theorem set_dec_congr (fs fs2 : List (String × Json))
    (h : ∀ k ∈ Set.fields, getField fs2 k = getField fs k) :
    Set.dec fs2 = Set.dec fs := by
  simp only [Set.dec,
    h "key" (by simp [Set.fields]),
    h "default" (by simp [Set.fields]),
    h "want_reply" (by simp [Set.fields]),
    h "operations" (by simp [Set.fields])]

/-- The serde field names of SetNotify. -/
def SetNotify.fields : List String :=
  ["keys"]

theorem setNotify_dec_congr (fs fs2 : List (String × Json))
    (h : ∀ k ∈ SetNotify.fields, getField fs2 k = getField fs k) :
    SetNotify.dec fs2 = SetNotify.dec fs := by
  simp only [SetNotify.dec,
    h "keys" (by simp [SetNotify.fields])]

/-- The serde field names of RoomInfo. -/
def RoomInfo.fields : List String :=
  ["version", "generator_version", "tags", "password", "permissions", "hint_cost", "location_check_points", "games", "datapackage_checksums", "seed_name", "time"]

theorem roomInfo_dec_congr (fs fs2 : List (String × Json))
    (h : ∀ k ∈ RoomInfo.fields, getField fs2 k = getField fs k) :
    RoomInfo.dec fs2 = RoomInfo.dec fs := by
  simp only [RoomInfo.dec,
    h "version" (by simp [RoomInfo.fields]),
    h "generator_version" (by simp [RoomInfo.fields]),
    h "tags" (by simp [RoomInfo.fields]),
    h "password" (by simp [RoomInfo.fields]),
    h "permissions" (by simp [RoomInfo.fields]),
    h "hint_cost" (by simp [RoomInfo.fields]),
    h "location_check_points" (by simp [RoomInfo.fields]),
    h "games" (by simp [RoomInfo.fields]),
    h "datapackage_checksums" (by simp [RoomInfo.fields]),
    h "seed_name" (by simp [RoomInfo.fields]),
    h "time" (by simp [RoomInfo.fields])]

/-- The serde field names of ConnectionRefused. -/
def ConnectionRefused.fields : List String :=
  ["errors"]

theorem connectionRefused_dec_congr (fs fs2 : List (String × Json))
    (h : ∀ k ∈ ConnectionRefused.fields, getField fs2 k = getField fs k) :
    ConnectionRefused.dec fs2 = ConnectionRefused.dec fs := by
  simp only [ConnectionRefused.dec,
    h "errors" (by simp [ConnectionRefused.fields])]

/-- The serde field names of Connected. -/
def Connected.fields : List String :=
  ["team", "slot", "players", "missing_locations", "checked_locations", "slot_data", "slot_info"]

theorem connected_dec_congr (fs fs2 : List (String × Json))
    (h : ∀ k ∈ Connected.fields, getField fs2 k = getField fs k) :
    Connected.dec fs2 = Connected.dec fs := by
  simp only [Connected.dec,
    h "team" (by simp [Connected.fields]),
    h "slot" (by simp [Connected.fields]),
    h "players" (by simp [Connected.fields]),
    h "missing_locations" (by simp [Connected.fields]),
    h "checked_locations" (by simp [Connected.fields]),
    h "slot_data" (by simp [Connected.fields]),
    h "slot_info" (by simp [Connected.fields])]

/-- The serde field names of ReceivedItems. -/
def ReceivedItems.fields : List String :=
  ["index", "items"]

theorem receivedItems_dec_congr (fs fs2 : List (String × Json))
    (h : ∀ k ∈ ReceivedItems.fields, getField fs2 k = getField fs k) :
    ReceivedItems.dec fs2 = ReceivedItems.dec fs := by
  simp only [ReceivedItems.dec,
    h "index" (by simp [ReceivedItems.fields]),
    h "items" (by simp [ReceivedItems.fields])]

/-- The serde field names of LocationInfo. -/
def LocationInfo.fields : List String :=
  ["locations"]

theorem locationInfo_dec_congr (fs fs2 : List (String × Json))
    (h : ∀ k ∈ LocationInfo.fields, getField fs2 k = getField fs k) :
    LocationInfo.dec fs2 = LocationInfo.dec fs := by
  simp only [LocationInfo.dec,
    h "locations" (by simp [LocationInfo.fields])]

/-- The serde field names of RoomUpdate. -/
def RoomUpdate.fields : List String :=
  ["version", "tags", "password", "permissions", "hint_cost", "location_check_points", "games", "datapackage_versions", "seed_name", "time", "hint_points", "players", "checked_locations", "missing_locations"]

theorem roomUpdate_dec_congr (fs fs2 : List (String × Json))
    (h : ∀ k ∈ RoomUpdate.fields, getField fs2 k = getField fs k) :
    RoomUpdate.dec fs2 = RoomUpdate.dec fs := by
  simp only [RoomUpdate.dec,
    h "version" (by simp [RoomUpdate.fields]),
    h "tags" (by simp [RoomUpdate.fields]),
    h "password" (by simp [RoomUpdate.fields]),
    h "permissions" (by simp [RoomUpdate.fields]),
    h "hint_cost" (by simp [RoomUpdate.fields]),
    h "location_check_points" (by simp [RoomUpdate.fields]),
    h "games" (by simp [RoomUpdate.fields]),
    h "datapackage_versions" (by simp [RoomUpdate.fields]),
    h "seed_name" (by simp [RoomUpdate.fields]),
    h "time" (by simp [RoomUpdate.fields]),
    h "hint_points" (by simp [RoomUpdate.fields]),
    h "players" (by simp [RoomUpdate.fields]),
    h "checked_locations" (by simp [RoomUpdate.fields]),
    h "missing_locations" (by simp [RoomUpdate.fields])]

/-- The serde field names of Print. -/
def Print.fields : List String :=
  ["text"]

theorem print_dec_congr (fs fs2 : List (String × Json))
    (h : ∀ k ∈ Print.fields, getField fs2 k = getField fs k) :
    Print.dec fs2 = Print.dec fs := by
  simp only [Print.dec,
    h "text" (by simp [Print.fields])]

/-- The serde field names of PrintJSON. -/
def PrintJSON.fields : List String :=
  ["data", "type", "receiving", "item", "found", "countdown"]

theorem printJSON_dec_congr (fs fs2 : List (String × Json))
    (h : ∀ k ∈ PrintJSON.fields, getField fs2 k = getField fs k) :
    PrintJSON.dec fs2 = PrintJSON.dec fs := by
  simp only [PrintJSON.dec,
    h "data" (by simp [PrintJSON.fields]),
    h "type" (by simp [PrintJSON.fields]),
    h "receiving" (by simp [PrintJSON.fields]),
    h "item" (by simp [PrintJSON.fields]),
    h "found" (by simp [PrintJSON.fields]),
    h "countdown" (by simp [PrintJSON.fields])]

/-- The serde field names of DataPackage. -/
def DataPackage.fields : List String :=
  ["data"]

theorem dataPackage_dec_congr (fs fs2 : List (String × Json))
    (h : ∀ k ∈ DataPackage.fields, getField fs2 k = getField fs k) :
    DataPackage.dec fs2 = DataPackage.dec fs := by
  simp only [DataPackage.dec,
    h "data" (by simp [DataPackage.fields])]

/-- The serde field names of Bounced. -/
def Bounced.fields : List String :=
  ["games", "slots", "tags", "data"]

theorem bounced_dec_congr (fs fs2 : List (String × Json))
    (h : ∀ k ∈ Bounced.fields, getField fs2 k = getField fs k) :
    Bounced.dec fs2 = Bounced.dec fs := by
  simp only [Bounced.dec,
    h "games" (by simp [Bounced.fields]),
    h "slots" (by simp [Bounced.fields]),
    h "tags" (by simp [Bounced.fields]),
    h "data" (by simp [Bounced.fields])]

/-- The serde field names of InvalidPacket. -/
def InvalidPacket.fields : List String :=
  ["type", "original_cmd", "text"]

theorem invalidPacket_dec_congr (fs fs2 : List (String × Json))
    (h : ∀ k ∈ InvalidPacket.fields, getField fs2 k = getField fs k) :
    InvalidPacket.dec fs2 = InvalidPacket.dec fs := by
  simp only [InvalidPacket.dec,
    h "type" (by simp [InvalidPacket.fields]),
    h "original_cmd" (by simp [InvalidPacket.fields]),
    h "text" (by simp [InvalidPacket.fields])]

/-- The serde field names of Retrieved. -/
def Retrieved.fields : List String :=
  ["keys"]

theorem retrieved_dec_congr (fs fs2 : List (String × Json))
    (h : ∀ k ∈ Retrieved.fields, getField fs2 k = getField fs k) :
    Retrieved.dec fs2 = Retrieved.dec fs := by
  simp only [Retrieved.dec,
    h "keys" (by simp [Retrieved.fields])]

/-- The serde field names of SetReply. -/
def SetReply.fields : List String :=
  ["key", "value", "original_value"]

theorem setReply_dec_congr (fs fs2 : List (String × Json))
    (h : ∀ k ∈ SetReply.fields, getField fs2 k = getField fs k) :
    SetReply.dec fs2 = SetReply.dec fs := by
  simp only [SetReply.dec,
    h "key" (by simp [SetReply.fields]),
    h "value" (by simp [SetReply.fields]),
    h "original_value" (by simp [SetReply.fields])]

/-- The payload field names a client cmd declares (empty for the unit
variant Sync and for unknown tags). -/
def clientFieldsOf : String → List String
  | "Connect" => Connect.fields
  | "LocationChecks" => LocationChecks.fields
  | "LocationScouts" => LocationScouts.fields
  | "StatusUpdate" => StatusUpdate.fields
  | "Say" => Say.fields
  | "GetDataPackage" => GetDataPackage.fields
  | "Bounce" => Bounce.fields
  | "Get" => Get.fields
  | "Set" => Set.fields
  | "SetNotify" => SetNotify.fields
  | _ => []

/-- The payload field names a server cmd declares. -/
def serverFieldsOf : String → List String
  | "RoomInfo" => RoomInfo.fields
  | "ConnectionRefused" => ConnectionRefused.fields
  | "Connected" => Connected.fields
  | "ReceivedItems" => ReceivedItems.fields
  | "LocationInfo" => LocationInfo.fields
  | "RoomUpdate" => RoomUpdate.fields
  | "Print" => Print.fields
  | "PrintJSON" => PrintJSON.fields
  | "DataPackage" => DataPackage.fields
  | "Bounced" => Bounced.fields
  | "InvalidPacket" => InvalidPacket.fields
  | "Retrieved" => Retrieved.fields
  | "SetReply" => SetReply.fields
  | _ => []

/-- All field names serde consumes for a decoded client message: the cmd tag
plus the payload fields of its variant. -/
def ClientMessage.declaredFields (m : ClientMessage) : List String :=
  "cmd" :: clientFieldsOf m.cmdName

/-- All field names serde consumes for a decoded server message. -/
def ServerMessage.declaredFields (m : ServerMessage) : List String :=
  "cmd" :: serverFieldsOf m.cmdName

theorem map_dec_extend {α : Type} (sdec : List (String × Json) → Option α)
    (flds : List String)
    (hcongr : ∀ fs fs2, (∀ k ∈ flds, getField fs2 k = getField fs k) →
      sdec fs2 = sdec fs)
    (fs : List (String × Json)) (k : String) (v : Json) (hk : k ∉ flds) :
    sdec (fs ++ [(k, v)]) = sdec fs :=
  hcongr fs (fs ++ [(k, v)])
    (fun key hkey => getField_append_ne fs k v key (fun he => hk (he ▸ hkey)))

theorem decodeClient_extend (fs : List (String × Json)) (k : String) (v : Json)
    (m : ClientMessage) (hdec : decodeClientMessage (.obj fs) = some m)
    (hk : k ∉ m.declaredFields) :
    decodeClientMessage (.obj (fs ++ [(k, v)])) = some m := by
  have hc := decodeClient_cmd_of_some fs m hdec
  have hkcmd : k ≠ "cmd" := by
    intro he
    exact hk (he ▸ List.mem_cons_self "cmd" (clientFieldsOf m.cmdName))
  have hcA : getField (fs ++ [(k, v)]) "cmd" = some (.str m.cmdName) := by
    rw [getField_append_ne fs k v "cmd" (fun he => hkcmd he.symm), hc]
  have hk2 : k ∉ clientFieldsOf m.cmdName :=
    fun hin => hk (List.mem_cons_of_mem _ hin)
  cases m with
  | Connect c =>
    have hk3 : k ∉ Connect.fields := by
      simpa [clientFieldsOf, ClientMessage.cmdName] using hk2
    have he := map_dec_extend Connect.dec Connect.fields connect_dec_congr fs k v hk3
    simp only [decodeClientMessage, asObj_obj] at hdec ⊢
    simp [hcA, he]
    simp [hc] at hdec
    exact hdec
  | Sync =>
    simp only [ClientMessage.cmdName] at hcA
    simp [decodeClientMessage, hcA]
  | LocationChecks c =>
    have hk3 : k ∉ LocationChecks.fields := by
      simpa [clientFieldsOf, ClientMessage.cmdName] using hk2
    have he := map_dec_extend LocationChecks.dec LocationChecks.fields locationChecks_dec_congr fs k v hk3
    simp only [decodeClientMessage, asObj_obj] at hdec ⊢
    simp [hcA, he]
    simp [hc] at hdec
    exact hdec
  | LocationScouts c =>
    have hk3 : k ∉ LocationScouts.fields := by
      simpa [clientFieldsOf, ClientMessage.cmdName] using hk2
    have he := map_dec_extend LocationScouts.dec LocationScouts.fields locationScouts_dec_congr fs k v hk3
    simp only [decodeClientMessage, asObj_obj] at hdec ⊢
    simp [hcA, he]
    simp [hc] at hdec
    exact hdec
  | StatusUpdate c =>
    have hk3 : k ∉ StatusUpdate.fields := by
      simpa [clientFieldsOf, ClientMessage.cmdName] using hk2
    have he := map_dec_extend StatusUpdate.dec StatusUpdate.fields statusUpdate_dec_congr fs k v hk3
    simp only [decodeClientMessage, asObj_obj] at hdec ⊢
    simp [hcA, he]
    simp [hc] at hdec
    exact hdec
  | Say c =>
    have hk3 : k ∉ Say.fields := by
      simpa [clientFieldsOf, ClientMessage.cmdName] using hk2
    have he := map_dec_extend Say.dec Say.fields say_dec_congr fs k v hk3
    simp only [decodeClientMessage, asObj_obj] at hdec ⊢
    simp [hcA, he]
    simp [hc] at hdec
    exact hdec
  | GetDataPackage c =>
    have hk3 : k ∉ GetDataPackage.fields := by
      simpa [clientFieldsOf, ClientMessage.cmdName] using hk2
    have he := map_dec_extend GetDataPackage.dec GetDataPackage.fields getDataPackage_dec_congr fs k v hk3
    simp only [decodeClientMessage, asObj_obj] at hdec ⊢
    simp [hcA, he]
    simp [hc] at hdec
    exact hdec
  | Bounce c =>
    have hk3 : k ∉ Bounce.fields := by
      simpa [clientFieldsOf, ClientMessage.cmdName] using hk2
    have he := map_dec_extend Bounce.dec Bounce.fields bounce_dec_congr fs k v hk3
    simp only [decodeClientMessage, asObj_obj] at hdec ⊢
    simp [hcA, he]
    simp [hc] at hdec
    exact hdec
  | Get c =>
    have hk3 : k ∉ Get.fields := by
      simpa [clientFieldsOf, ClientMessage.cmdName] using hk2
    have he := map_dec_extend Get.dec Get.fields get_dec_congr fs k v hk3
    simp only [decodeClientMessage, asObj_obj] at hdec ⊢
    simp [hcA, he]
    simp [hc] at hdec
    exact hdec
  | Set c =>
    have hk3 : k ∉ Set.fields := by
      simpa [clientFieldsOf, ClientMessage.cmdName] using hk2
    have he := map_dec_extend Set.dec Set.fields set_dec_congr fs k v hk3
    simp only [decodeClientMessage, asObj_obj] at hdec ⊢
    simp [hcA, he]
    simp [hc] at hdec
    exact hdec
  | SetNotify c =>
    have hk3 : k ∉ SetNotify.fields := by
      simpa [clientFieldsOf, ClientMessage.cmdName] using hk2
    have he := map_dec_extend SetNotify.dec SetNotify.fields setNotify_dec_congr fs k v hk3
    simp only [decodeClientMessage, asObj_obj] at hdec ⊢
    simp [hcA, he]
    simp [hc] at hdec
    exact hdec

theorem decodeServer_extend (fs : List (String × Json)) (k : String) (v : Json)
    (m : ServerMessage) (hdec : decodeServerMessage (.obj fs) = some m)
    (hk : k ∉ m.declaredFields) :
    decodeServerMessage (.obj (fs ++ [(k, v)])) = some m := by
  have hc := decodeServer_cmd_of_some fs m hdec
  have hkcmd : k ≠ "cmd" := by
    intro he
    exact hk (he ▸ List.mem_cons_self "cmd" (serverFieldsOf m.cmdName))
  have hcA : getField (fs ++ [(k, v)]) "cmd" = some (.str m.cmdName) := by
    rw [getField_append_ne fs k v "cmd" (fun he => hkcmd he.symm), hc]
  have hk2 : k ∉ serverFieldsOf m.cmdName :=
    fun hin => hk (List.mem_cons_of_mem _ hin)
  cases m with
  | RoomInfo c =>
    have hk3 : k ∉ RoomInfo.fields := by
      simpa [serverFieldsOf, ServerMessage.cmdName] using hk2
    have he := map_dec_extend RoomInfo.dec RoomInfo.fields roomInfo_dec_congr fs k v hk3
    simp only [decodeServerMessage, asObj_obj] at hdec ⊢
    simp [hcA, he]
    simp [hc] at hdec
    exact hdec
  | ConnectionRefused c =>
    have hk3 : k ∉ ConnectionRefused.fields := by
      simpa [serverFieldsOf, ServerMessage.cmdName] using hk2
    have he := map_dec_extend ConnectionRefused.dec ConnectionRefused.fields connectionRefused_dec_congr fs k v hk3
    simp only [decodeServerMessage, asObj_obj] at hdec ⊢
    simp [hcA, he]
    simp [hc] at hdec
    exact hdec
  | Connected c =>
    have hk3 : k ∉ Connected.fields := by
      simpa [serverFieldsOf, ServerMessage.cmdName] using hk2
    have he := map_dec_extend Connected.dec Connected.fields connected_dec_congr fs k v hk3
    simp only [decodeServerMessage, asObj_obj] at hdec ⊢
    simp [hcA, he]
    simp [hc] at hdec
    exact hdec
  | ReceivedItems c =>
    have hk3 : k ∉ ReceivedItems.fields := by
      simpa [serverFieldsOf, ServerMessage.cmdName] using hk2
    have he := map_dec_extend ReceivedItems.dec ReceivedItems.fields receivedItems_dec_congr fs k v hk3
    simp only [decodeServerMessage, asObj_obj] at hdec ⊢
    simp [hcA, he]
    simp [hc] at hdec
    exact hdec
  | LocationInfo c =>
    have hk3 : k ∉ LocationInfo.fields := by
      simpa [serverFieldsOf, ServerMessage.cmdName] using hk2
    have he := map_dec_extend LocationInfo.dec LocationInfo.fields locationInfo_dec_congr fs k v hk3
    simp only [decodeServerMessage, asObj_obj] at hdec ⊢
    simp [hcA, he]
    simp [hc] at hdec
    exact hdec
  | RoomUpdate c =>
    have hk3 : k ∉ RoomUpdate.fields := by
      simpa [serverFieldsOf, ServerMessage.cmdName] using hk2
    have he := map_dec_extend RoomUpdate.dec RoomUpdate.fields roomUpdate_dec_congr fs k v hk3
    simp only [decodeServerMessage, asObj_obj] at hdec ⊢
    simp [hcA, he]
    simp [hc] at hdec
    exact hdec
  | Print c =>
    have hk3 : k ∉ Print.fields := by
      simpa [serverFieldsOf, ServerMessage.cmdName] using hk2
    have he := map_dec_extend Print.dec Print.fields print_dec_congr fs k v hk3
    simp only [decodeServerMessage, asObj_obj] at hdec ⊢
    simp [hcA, he]
    simp [hc] at hdec
    exact hdec
  | PrintJSON c =>
    have hk3 : k ∉ PrintJSON.fields := by
      simpa [serverFieldsOf, ServerMessage.cmdName] using hk2
    have he := map_dec_extend PrintJSON.dec PrintJSON.fields printJSON_dec_congr fs k v hk3
    simp only [decodeServerMessage, asObj_obj] at hdec ⊢
    simp [hcA, he]
    simp [hc] at hdec
    exact hdec
  | DataPackage c =>
    have hk3 : k ∉ DataPackage.fields := by
      simpa [serverFieldsOf, ServerMessage.cmdName] using hk2
    have he := map_dec_extend DataPackage.dec DataPackage.fields dataPackage_dec_congr fs k v hk3
    simp only [decodeServerMessage, asObj_obj] at hdec ⊢
    simp [hcA, he]
    simp [hc] at hdec
    exact hdec
  | Bounced c =>
    have hk3 : k ∉ Bounced.fields := by
      simpa [serverFieldsOf, ServerMessage.cmdName] using hk2
    have he := map_dec_extend Bounced.dec Bounced.fields bounced_dec_congr fs k v hk3
    simp only [decodeServerMessage, asObj_obj] at hdec ⊢
    simp [hcA, he]
    simp [hc] at hdec
    exact hdec
  | InvalidPacket c =>
    have hk3 : k ∉ InvalidPacket.fields := by
      simpa [serverFieldsOf, ServerMessage.cmdName] using hk2
    have he := map_dec_extend InvalidPacket.dec InvalidPacket.fields invalidPacket_dec_congr fs k v hk3
    simp only [decodeServerMessage, asObj_obj] at hdec ⊢
    simp [hcA, he]
    simp [hc] at hdec
    exact hdec
  | Retrieved c =>
    have hk3 : k ∉ Retrieved.fields := by
      simpa [serverFieldsOf, ServerMessage.cmdName] using hk2
    have he := map_dec_extend Retrieved.dec Retrieved.fields retrieved_dec_congr fs k v hk3
    simp only [decodeServerMessage, asObj_obj] at hdec ⊢
    simp [hcA, he]
    simp [hc] at hdec
    exact hdec
  | SetReply c =>
    have hk3 : k ∉ SetReply.fields := by
      simpa [serverFieldsOf, ServerMessage.cmdName] using hk2
    have he := map_dec_extend SetReply.dec SetReply.fields setReply_dec_congr fs k v hk3
    simp only [decodeServerMessage, asObj_obj] at hdec ⊢
    simp [hcA, he]
    simp [hc] at hdec
    exact hdec

/-! ### The claims -/

/-- C1 counterexample: at the concrete RoomInfo whose time is NaN, serde
serializes the non-finite f32 as null and decoding the result fails, so
decode(encode(m)) = m is false as universally stated; moreover a RoomUpdate
whose time is Some NaN decodes to a different message, with time absent. -/
theorem claim1_counterexample :
    decodeServerMessage (encodeServerMessage (.RoomInfo
      { version := network_version, generator_version := network_version,
        tags := [], password := false,
        permissions := { release := .Disabled, collect := .Disabled,
                         remaining := .Disabled },
        hint_cost := 0, location_check_points := 0, games := none,
        datapackage_checksums := [], seed_name := "", time := .nan })) ≠
      some (.RoomInfo
      { version := network_version, generator_version := network_version,
        tags := [], password := false,
        permissions := { release := .Disabled, collect := .Disabled,
                         remaining := .Disabled },
        hint_cost := 0, location_check_points := 0, games := none,
        datapackage_checksums := [], seed_name := "", time := .nan }) ∧
    decodeServerMessage (encodeServerMessage (.RoomInfo
      { version := network_version, generator_version := network_version,
        tags := [], password := false,
        permissions := { release := .Disabled, collect := .Disabled,
                         remaining := .Disabled },
        hint_cost := 0, location_check_points := 0, games := none,
        datapackage_checksums := [], seed_name := "", time := .nan })) = none ∧
    decodeServerMessage (encodeServerMessage (.RoomUpdate
      { version := none, tags := none, password := none, permissions := none,
        hint_cost := none, location_check_points := none, games := none,
        datapackage_versions := none, seed_name := none, time := some .nan,
        hint_points := none, players := none, checked_locations := none,
        missing_locations := none })) =
      some (.RoomUpdate
      { version := none, tags := none, password := none, permissions := none,
        hint_cost := none, location_check_points := none, games := none,
        datapackage_versions := none, seed_name := none, time := none,
        hint_points := none, players := none, checked_locations := none,
        missing_locations := none }) :=
  ⟨fun hcon => Option.noConfusion hcon, rfl, rfl⟩

/-- C1 amended: decoding after encoding is the identity on every
ClientMessage, and on every ServerMessage whose f32 time fields are finite
(RoomInfo.time finite; RoomUpdate.time absent or finite); for a non-finite
time serde_json emits null, so an encoded RoomInfo fails to decode and an
encoded RoomUpdate comes back with time absent. -/
theorem claim1_roundtrip_finite :
    (∀ m : ClientMessage, decodeClientMessage (encodeClientMessage m) = some m) ∧
    (∀ m : ServerMessage, m.timeFinite = true →
      decodeServerMessage (encodeServerMessage m) = some m) :=
  ⟨decode_encode_client, decode_encode_server⟩

/-- C1 witness: the server clause applied at a concrete RoomInfo with
finite time (the client clause carries no hypothesis). -/
theorem claim1_witness :
    decodeServerMessage (encodeServerMessage (.RoomInfo
      { version := network_version, generator_version := network_version,
        tags := [], password := false,
        permissions := { release := .Disabled, collect := .Disabled,
                         remaining := .Disabled },
        hint_cost := 0, location_check_points := 0, games := none,
        datapackage_checksums := [], seed_name := "", time := .finite 7 })) =
      some (.RoomInfo
      { version := network_version, generator_version := network_version,
        tags := [], password := false,
        permissions := { release := .Disabled, collect := .Disabled,
                         remaining := .Disabled },
        hint_cost := 0, location_check_points := 0, games := none,
        datapackage_checksums := [], seed_name := "", time := .finite 7 }) :=
  claim1_roundtrip_finite.2 _ (by decide)

/-- C2 counterexample: at a concrete PrintJSON lacking item (receiving and
found present), the converter does not surface a recoverable typed error to
the caller: it panics, aborting the process, refuting the claim as stated. -/
theorem claim2_counterexample :
    HintData.fromPrintJSON (fun _ => false)
      { data := [], type := none, receiving := some 7, item := none,
        found := some true, countdown := none } =
      .panicked "`item` field is required, but missing from PrintJSON packet" := rfl

/-- C2 amended: converting a PrintJSON lacking item, receiving or found
fails loudly by panicking (process abort, via expect) with a message naming
the missing field - never substituting a default value (never returning ok)
- rather than returning a recoverable typed error as the claim states. -/
theorem claim2_missing_field_panics (imp : Int → Bool) (pj : PrintJSON)
    (h : pj.item = none ∨ pj.receiving = none ∨ pj.found = none) :
    (∃ msg, HintData.fromPrintJSON imp pj = .panicked msg) ∧
    ∀ hd : HintData, HintData.fromPrintJSON imp pj ≠ .ok hd := by
  obtain ⟨data, ty, recv, item, found, cd⟩ := pj
  rcases item with _ | it
  · exact ⟨⟨_, rfl⟩, fun hd hcon => RustResult.noConfusion hcon⟩
  · rcases recv with _ | r
    · exact ⟨⟨_, rfl⟩, fun hd hcon => RustResult.noConfusion hcon⟩
    · rcases found with _ | f
      · exact ⟨⟨_, rfl⟩, fun hd hcon => RustResult.noConfusion hcon⟩
      · simp at h

/-- C2 witness: the amended theorem applied at a concrete PrintJSON lacking
receiving. -/
theorem claim2_witness :
    (∃ msg, HintData.fromPrintJSON (fun _ => true)
      { data := [], type := none, receiving := none, item := some ⟨1, 2, 3, 0⟩,
        found := some true, countdown := none } = .panicked msg) ∧
    ∀ hd : HintData, HintData.fromPrintJSON (fun _ => true)
      { data := [], type := none, receiving := none, item := some ⟨1, 2, 3, 0⟩,
        found := some true, countdown := none } ≠ .ok hd :=
  claim2_missing_field_panics (fun _ => true) _ (Or.inr (Or.inl rfl))

/-- C3 counterexample: encoding a Connect whose optional password and
items_handling are absent emits those keys with explicit null values - they
are not omitted from the object - refuting the claim as stated. -/
theorem claim3_counterexample :
    encodeClientMessage (.Connect
      { password := none, name := "Player1", version := network_version,
        items_handling := none, tags := [], uuid := "u", game := "g",
        slot_data := false }) =
      .obj [("cmd", .str "Connect"), ("password", .null),
        ("name", .str "Player1"),
        ("version", .obj [("major", .num 0), ("minor", .num 5),
          ("build", .num 0), ("class", .str "Version")]),
        ("items_handling", .null), ("tags", .arr []), ("uuid", .str "u"),
        ("game", .str "g"), ("slot_data", .bool false)] := rfl

/-- C3 amended: only GetDataPackage.games carries skip_serializing_if, so
only there is an absent optional field omitted from the encoded object;
every other absent optional field is emitted as an explicit null
(Connect.password and PrintJSON.item shown). -/
theorem claim3_null_vs_omitted :
    (∀ g : GetDataPackage, g.games = none →
      encodeClientMessage (.GetDataPackage g) =
        .obj [("cmd", .str "GetDataPackage")]) ∧
    (∀ g : GetDataPackage, g.games = none → getField g.enc "games" = none) ∧
    (∀ c : Connect, c.password = none →
      getField c.enc "password" = some .null) ∧
    (∀ p : PrintJSON, p.item = none → getField p.enc "item" = some .null) := by
  refine ⟨fun g hg => ?_, fun g hg => ?_, fun c hcp => ?_, fun p hp => ?_⟩
  · simp [encodeClientMessage, GetDataPackage.enc, hg]
  · simp [GetDataPackage.enc, hg, getField]
  · simp [Connect.enc, hcp, getField, encOpt]
  · simp [PrintJSON.enc, hp, getField, encOpt]

/-- C3 witness: the amended theorem applied at a GetDataPackage with absent
games and a Connect with absent password. -/
theorem claim3_witness :
    encodeClientMessage (.GetDataPackage { games := none }) =
      .obj [("cmd", .str "GetDataPackage")] ∧
    getField (Connect.enc
      { password := none, name := "", version := network_version,
        items_handling := none, tags := [], uuid := "", game := "",
        slot_data := true }) "password" = some .null :=
  ⟨claim3_null_vs_omitted.1 _ rfl, claim3_null_vs_omitted.2.2.1 _ rfl⟩

/-- C4: the two hint converters agree: for any flags predicate imp, a
PrintJSON whose receiving, item and found agree with a flat Hint converts to
exactly the HintData the flat converter produces, is_important being the one
computation imp item_flags in both paths; in particular at the spec's
concrete inputs. -/
theorem claim4_hint_equiv :
    (∀ (imp : Int → Bool) (pj : PrintJSON) (ht : Hint),
      pj.receiving = some ht.receiving_player →
      pj.item = some ⟨ht.item, ht.location, ht.finding_player, ht.item_flags⟩ →
      pj.found = some ht.found →
      HintData.fromPrintJSON imp pj = .ok (HintData.fromHint imp ht)) ∧
    (∀ imp : Int → Bool,
      HintData.fromPrintJSON imp
        { data := [], type := none, receiving := some 7,
          item := some ⟨1, 2, 3, 1⟩, found := some true, countdown := none } =
        .ok (HintData.fromHint imp
          { receiving_player := 7, finding_player := 3, location := 2,
            item := 1, found := true, entrance := "", item_flags := 1 }) ∧
      (HintData.fromHint imp
        { receiving_player := 7, finding_player := 3, location := 2,
          item := 1, found := true, entrance := "",
          item_flags := 1 }).is_important = imp 1) := by
  constructor
  · intro imp pj ht h1 h2 h3
    simp [HintData.fromPrintJSON, h1, h2, h3, HintData.fromHint]
  · exact fun imp => ⟨rfl, rfl⟩

/-- C4 witness: the general clause applied at the spec's concrete inputs
with a concrete flags predicate. -/
theorem claim4_witness :
    HintData.fromPrintJSON (fun f => decide (f = 1))
      { data := [], type := none, receiving := some 7,
        item := some ⟨1, 2, 3, 1⟩, found := some true, countdown := none } =
      .ok (HintData.fromHint (fun f => decide (f = 1))
        { receiving_player := 7, finding_player := 3, location := 2,
          item := 1, found := true, entrance := "", item_flags := 1 }) :=
  claim4_hint_equiv.1 (fun f => decide (f = 1)) _ _ rfl rfl rfl

/-- C5: each integer-repr enum decodes exactly its closed code set to the
named variants - Permission on 0, 1, 2, 6, 7, SlotType on 0, 1, 2,
ClientStatus on 0, 5, 10, 20, 30 - and every other u16 value is a clean
decode error (none: the decoders are total functions into Option, so no
panic and no silent default). -/
theorem claim5_enum_bounds :
    (Permission.decJ (.num 0) = some .Disabled ∧
     Permission.decJ (.num 1) = some .Enabled ∧
     Permission.decJ (.num 2) = some .Goal ∧
     Permission.decJ (.num 6) = some .Auto ∧
     Permission.decJ (.num 7) = some .AutoEnabled) ∧
    (∀ n : Nat, n < 65536 → n ∉ ([0, 1, 2, 6, 7] : List Nat) →
      Permission.decJ (.num n) = none) ∧
    (SlotType.decJ (.num 0) = some .Spectator ∧
     SlotType.decJ (.num 1) = some .Player ∧
     SlotType.decJ (.num 2) = some .Group) ∧
    (∀ n : Nat, n < 65536 → n ∉ ([0, 1, 2] : List Nat) →
      SlotType.decJ (.num n) = none) ∧
    (ClientStatus.decJ (.num 0) = some .ClientUnknown ∧
     ClientStatus.decJ (.num 5) = some .ClientConnected ∧
     ClientStatus.decJ (.num 10) = some .ClientReady ∧
     ClientStatus.decJ (.num 20) = some .ClientPlaying ∧
     ClientStatus.decJ (.num 30) = some .ClientGoal) ∧
    (∀ n : Nat, n < 65536 → n ∉ ([0, 5, 10, 20, 30] : List Nat) →
      ClientStatus.decJ (.num n) = none) := by
  refine ⟨⟨rfl, rfl, rfl, rfl, rfl⟩, fun n hlt hn => ?_, ⟨rfl, rfl, rfl⟩,
    fun n hlt hn => ?_, ⟨rfl, rfl, rfl, rfl, rfl⟩, fun n hlt hn => ?_⟩ <;>
  · simp at hn
    simp [Permission.decJ, SlotType.decJ, ClientStatus.decJ, asInt,
      Permission.fromCode, SlotType.fromCode, ClientStatus.fromCode]
    split_ifs <;> first | rfl | omega

/-- C5 witness: the out-of-set clauses applied at concrete codes. -/
theorem claim5_witness :
    Permission.decJ (.num 3) = none ∧ SlotType.decJ (.num 3) = none ∧
    ClientStatus.decJ (.num 4) = none :=
  ⟨claim5_enum_bounds.2.1 3 (by decide) (by decide),
   claim5_enum_bounds.2.2.2.1 3 (by decide) (by decide),
   claim5_enum_bounds.2.2.2.2.2 4 (by decide) (by decide)⟩

/-- C6: the From u16 conversion for ClientStatus returns the matching
variant on each of 0, 5, 10, 20, 30 and panics (terminates the process,
with the source's message) on every other u16; under the precondition that
the code is in the set, the panic branch is unreachable. -/
theorem claim6_fromU16 :
    (ClientStatus.fromU16 0 = .ok .ClientUnknown ∧
     ClientStatus.fromU16 5 = .ok .ClientConnected ∧
     ClientStatus.fromU16 10 = .ok .ClientReady ∧
     ClientStatus.fromU16 20 = .ok .ClientPlaying ∧
     ClientStatus.fromU16 30 = .ok .ClientGoal) ∧
    (∀ n : Nat, n < 65536 → n ∉ ([0, 5, 10, 20, 30] : List Nat) →
      ClientStatus.fromU16 n =
        .panicked ("Bad value provided for ClientStatus (" ++ toString n ++ ")")) ∧
    (∀ n : Nat, n ∈ ([0, 5, 10, 20, 30] : List Nat) →
      ∀ msg, ClientStatus.fromU16 n ≠ .panicked msg) := by
  refine ⟨⟨rfl, rfl, rfl, rfl, rfl⟩, fun n hlt hn => ?_, fun n hn msg => ?_⟩
  · simp at hn
    simp [ClientStatus.fromU16]
    split_ifs <;> first | rfl | omega
  · simp at hn
    rcases hn with rfl | rfl | rfl | rfl | rfl <;> simp [ClientStatus.fromU16]

/-- C6 witness: the theorem applied at the out-of-set code 42 and at the
in-set code 30. -/
theorem claim6_witness :
    ClientStatus.fromU16 42 =
      .panicked ("Bad value provided for ClientStatus (" ++ toString 42 ++ ")") ∧
    ∀ msg, ClientStatus.fromU16 30 ≠ .panicked msg :=
  ⟨claim6_fromU16.2.1 42 (by decide) (by decide),
   claim6_fromU16.2.2 30 (by decide)⟩

/-- C7 counterexample: generator_version is a RoomInfo field, but RoomUpdate
has no field of that name: the encoded RoomInfo object carries the key while
an encoded RoomUpdate (which always emits all fourteen of its keys) does
not, refuting the claim that RoomUpdate carries every RoomInfo field. -/
theorem claim7_counterexample :
    "generator_version" ∈ (RoomInfo.enc
      { version := network_version, generator_version := network_version,
        tags := [], password := false,
        permissions := { release := .Disabled, collect := .Disabled,
                         remaining := .Disabled },
        hint_cost := 0, location_check_points := 0, games := none,
        datapackage_checksums := [], seed_name := "",
        time := .finite 0 }).map Prod.fst ∧
    "generator_version" ∉ (RoomUpdate.enc
      { version := none, tags := none, password := none, permissions := none,
        hint_cost := none, location_check_points := none, games := none,
        datapackage_versions := none, seed_name := none, time := none,
        hint_points := none, players := none, checked_locations := none,
        missing_locations := none }).map Prod.fst := by
  decide

/-- C7 amended: RoomUpdate carries optional forms of the RoomInfo fields
except generator_version (absent entirely) and datapackage_checksums
(replaced by datapackage_versions, a map of game to integer; likewise its
permissions is a plain map of string to Permission rather than a
PermissionsMap), plus the four exclusive optional fields hint_points,
players, checked_locations, missing_locations; and decoding a RoomUpdate
object carrying only checked_locations [5] yields checked_locations some [5]
with every other field absent, distinguishable from empty, false or zero. -/
theorem claim7_sparse_update :
    (∀ r : RoomInfo, (RoomInfo.enc r).map Prod.fst =
      ["version", "generator_version", "tags", "password", "permissions",
       "hint_cost", "location_check_points", "games",
       "datapackage_checksums", "seed_name", "time"]) ∧
    (∀ r : RoomUpdate, (RoomUpdate.enc r).map Prod.fst =
      ["version", "tags", "password", "permissions", "hint_cost",
       "location_check_points", "games", "datapackage_versions", "seed_name",
       "time", "hint_points", "players", "checked_locations",
       "missing_locations"]) ∧
    decodeServerMessage (.obj [("cmd", .str "RoomUpdate"),
      ("checked_locations", .arr [.num 5])]) =
      some (.RoomUpdate
        { version := none, tags := none, password := none, permissions := none,
          hint_cost := none, location_check_points := none, games := none,
          datapackage_versions := none, seed_name := none, time := none,
          hint_points := none, players := none, checked_locations := some [5],
          missing_locations := none }) :=
  ⟨fun _ => rfl, fun _ => rfl, rfl⟩

/-- C8: the cmd discriminator is exhaustive: an object whose cmd string is
not a listed client (resp. server) command fails to decode with a clean
error (none, the MalformedMessage of the spec; decoding is a total function
into Option, so it never panics); when decoding succeeds, cmd names exactly
the produced variant; and every listed command is realized by some
successfully decoding object. -/
theorem claim8_discriminator :
    (∀ (fs : List (String × Json)) (s : String),
      getField fs "cmd" = some (.str s) → s ∉ clientCmds →
      decodeClientMessage (.obj fs) = none) ∧
    (∀ (fs : List (String × Json)) (s : String),
      getField fs "cmd" = some (.str s) → s ∉ serverCmds →
      decodeServerMessage (.obj fs) = none) ∧
    (∀ (fs : List (String × Json)) (m : ClientMessage),
      decodeClientMessage (.obj fs) = some m →
      getField fs "cmd" = some (.str m.cmdName)) ∧
    (∀ (fs : List (String × Json)) (m : ServerMessage),
      decodeServerMessage (.obj fs) = some m →
      getField fs "cmd" = some (.str m.cmdName)) ∧
    (∀ s ∈ clientCmds, ∃ (j : Json) (m : ClientMessage),
      decodeClientMessage j = some m ∧ m.cmdName = s) ∧
    (∀ s ∈ serverCmds, ∃ (j : Json) (m : ServerMessage),
      decodeServerMessage j = some m ∧ m.cmdName = s) := by
  refine ⟨decodeClient_unknown_cmd, decodeServer_unknown_cmd,
    decodeClient_cmd_of_some, decodeServer_cmd_of_some, ?_, ?_⟩
  · intro s hs
    simp only [clientCmds] at hs
    fin_cases hs
    · exact ⟨_, _, decode_encode_client
        (.Connect ⟨none, "", network_version, none, [], "", "", false⟩), rfl⟩
    · exact ⟨_, _, decode_encode_client .Sync, rfl⟩
    · exact ⟨_, _, decode_encode_client (.LocationChecks ⟨[]⟩), rfl⟩
    · exact ⟨_, _, decode_encode_client (.LocationScouts ⟨[], 0⟩), rfl⟩
    · exact ⟨_, _, decode_encode_client (.StatusUpdate ⟨.ClientUnknown⟩), rfl⟩
    · exact ⟨_, _, decode_encode_client (.Say ⟨""⟩), rfl⟩
    · exact ⟨_, _, decode_encode_client (.GetDataPackage ⟨none⟩), rfl⟩
    · exact ⟨_, _, decode_encode_client (.Bounce ⟨none, none, none, .null⟩), rfl⟩
    · exact ⟨_, _, decode_encode_client (.Get ⟨[]⟩), rfl⟩
    · exact ⟨_, _, decode_encode_client (.Set ⟨"", .null, false, []⟩), rfl⟩
    · exact ⟨_, _, decode_encode_client (.SetNotify ⟨[]⟩), rfl⟩
  · intro s hs
    simp only [serverCmds] at hs
    fin_cases hs
    · exact ⟨_, _, decode_encode_server (.RoomInfo ⟨network_version,
        network_version, [], false, ⟨.Disabled, .Disabled, .Disabled⟩, 0, 0,
        none, [], "", .finite 0⟩) rfl, rfl⟩
    · exact ⟨_, _, decode_encode_server (.ConnectionRefused ⟨[]⟩) rfl, rfl⟩
    · exact ⟨_, _, decode_encode_server (.Connected ⟨0, 0, [], [], [], .null, []⟩) rfl, rfl⟩
    · exact ⟨_, _, decode_encode_server (.ReceivedItems ⟨0, []⟩) rfl, rfl⟩
    · exact ⟨_, _, decode_encode_server (.LocationInfo ⟨[]⟩) rfl, rfl⟩
    · exact ⟨_, _, decode_encode_server (.RoomUpdate ⟨none, none, none, none,
        none, none, none, none, none, none, none, none, none, none⟩) rfl, rfl⟩
    · exact ⟨_, _, decode_encode_server (.Print ⟨""⟩) rfl, rfl⟩
    · exact ⟨_, _, decode_encode_server (.PrintJSON ⟨[], none, none, none, none, none⟩) rfl, rfl⟩
    · exact ⟨_, _, decode_encode_server (.DataPackage ⟨⟨[]⟩⟩) rfl, rfl⟩
    · exact ⟨_, _, decode_encode_server (.Bounced ⟨none, none, none,
        ⟨none, none, none, .null⟩⟩) rfl, rfl⟩
    · exact ⟨_, _, decode_encode_server (.InvalidPacket ⟨"", none, ""⟩) rfl, rfl⟩
    · exact ⟨_, _, decode_encode_server (.Retrieved ⟨[]⟩) rfl, rfl⟩
    · exact ⟨_, _, decode_encode_server (.SetReply ⟨"", .null, .null⟩) rfl, rfl⟩

/-- C8 witness: the unknown-discriminator clauses applied at the concrete
cmd Frobnicate, absent from both command lists. -/
theorem claim8_witness :
    decodeClientMessage (.obj [("cmd", .str "Frobnicate")]) = none ∧
    decodeServerMessage (.obj [("cmd", .str "Frobnicate")]) = none :=
  ⟨claim8_discriminator.1 _ "Frobnicate" rfl (by decide),
   claim8_discriminator.2.1 _ "Frobnicate" rfl (by decide)⟩

/-- C9 counterexample: the class field of NetworkVersion is not validated: a
value whose class is NotVersion both encodes with that class on the wire and
is accepted by decoding, refuting the claim that class is always the literal
Version and that any other class is rejected. -/
theorem claim9_counterexample :
    NetworkVersion.decJ (.obj [("major", .num 1), ("minor", .num 2),
      ("build", .num 3), ("class", .str "NotVersion")]) =
      some ⟨1, 2, 3, "NotVersion"⟩ ∧
    NetworkVersion.encJ ⟨1, 2, 3, "NotVersion"⟩ =
      .obj [("major", .num 1), ("minor", .num 2), ("build", .num 3),
        ("class", .str "NotVersion")] := ⟨rfl, rfl⟩

/-- C9 amended: the network_version constructor fixes class to the literal
Version and its encoding carries that tag, but class is an ordinary
unvalidated string field: every NetworkVersion encodes with whatever class
string it holds, and decoding accepts any class string (the round trip holds
for all values). -/
theorem claim9_version_tag :
    network_version.«class» = "Version" ∧
    getField (NetworkVersion.enc network_version) "class" =
      some (.str "Version") ∧
    (∀ v : NetworkVersion,
      getField (NetworkVersion.enc v) "class" = some (.str v.«class»)) ∧
    (∀ v : NetworkVersion, NetworkVersion.decJ v.encJ = some v) :=
  ⟨rfl, rfl, fun _ => rfl, networkVersion_decJ_encJ⟩

/-- C10: unknown sibling fields are ignored: if an object decodes to a
message m, appending a field whose name is not among the names declared for
the variant of m (its payload field names plus cmd) still decodes to the
same m rather than producing a shape-mismatch error. -/
theorem claim10_unknown_fields :
    (∀ (fs : List (String × Json)) (k : String) (v : Json) (m : ClientMessage),
      decodeClientMessage (.obj fs) = some m → k ∉ m.declaredFields →
      decodeClientMessage (.obj (fs ++ [(k, v)])) = some m) ∧
    (∀ (fs : List (String × Json)) (k : String) (v : Json) (m : ServerMessage),
      decodeServerMessage (.obj fs) = some m → k ∉ m.declaredFields →
      decodeServerMessage (.obj (fs ++ [(k, v)])) = some m) :=
  ⟨decodeClient_extend, decodeServer_extend⟩

/-- C10 witness: appending the undeclared field junk to a decoding Say
message leaves decoding unchanged. -/
theorem claim10_witness :
    decodeClientMessage (.obj ([("cmd", .str "Say"), ("text", .str "hi")] ++
      [("junk", .num 1)])) = some (.Say ⟨"hi"⟩) :=
  claim10_unknown_fields.1 [("cmd", .str "Say"), ("text", .str "hi")] "junk"
    (.num 1) (.Say ⟨"hi"⟩) (by rfl) (by decide)

end Archipelago
